import Mathlib

/-!
Verification of the sundex repository's core pipeline: the raster catalog
resolver, the window loader / grid aligner, the good-day estimator, and the
block downsampler.  Python floating point arithmetic is modelled over `ℝ`;
a NumPy `NaN` ("missing") sample is modelled as `none : Option ℝ`, with all
elementwise array operations propagating `none` the way NumPy propagates NaN.
The external `math.erf` function is kept abstract: theorems that depend on its
behaviour take the relevant property of `erf` as a hypothesis.
-/

set_option maxHeartbeats 1000000

namespace Sundex

/-- Climate variable identifiers, in the enumeration (dict-insertion) order of
`paths = {'ppt': {}, 'soltrans': {}, 'tmean': {}, 'tdmean': {}}`. -/
inductive Var where
  | ppt
  | soltrans
  | tmean
  | tdmean
deriving DecidableEq, Repr

/-- First-match association-list lookup, modelling Python `dict` lookup /
`dict.get` (keys are unique by construction in the modelled dicts). -/
def alookup {α β : Type _} [DecidableEq α] : List (α × β) → α → Option β
  | [], _ => none
  | (k, v) :: rest, a => if k = a then some v else alookup rest a

/-- A shapeless geographic grid: each cell holds a sample or is missing (NaN). -/
def GeoGrid (ι : Type) : Type := ι → Option ℝ

/-- Monthly data for one variable: the months (1-12) that have a loaded grid,
in insertion order, modelling `monthly_data[var]`. -/
def VarData (ι : Type) : Type := List (ℕ × GeoGrid ι)

/-- The full `monthly_data` mapping: variable → month → grid. -/
def MonthlyData (ι : Type) : Type := List (Var × VarData ι)

namespace NanReal

/-- Unary elementwise operation with NaN propagation. -/
def o1 (f : ℝ → ℝ) : Option ℝ → Option ℝ
  | some x => some (f x)
  | none => none

/-- Binary elementwise operation with NaN propagation. -/
def o2 (f : ℝ → ℝ → ℝ) : Option ℝ → Option ℝ → Option ℝ
  | some x, some y => some (f x y)
  | _, _ => none

end NanReal

/-- Elementwise map over a grid (`np` unary ufunc semantics). -/
def gmap {ι : Type} (f : ℝ → ℝ) (g : GeoGrid ι) : GeoGrid ι :=
  fun c => NanReal.o1 f (g c)

/-- Elementwise sum of two grids (`a + b`). -/
def gadd {ι : Type} (a b : GeoGrid ι) : GeoGrid ι :=
  fun c => NanReal.o2 (fun x y => x + y) (a c) (b c)

/-- Elementwise product of two grids (`a * b`). -/
def gmul {ι : Type} (a b : GeoGrid ι) : GeoGrid ι :=
  fun c => NanReal.o2 (fun x y => x * y) (a c) (b c)

/-- Grid times scalar (`a * days_in_month`). -/
def gscale {ι : Type} (a : GeoGrid ι) (d : ℝ) : GeoGrid ι :=
  gmap (fun x => x * d) a

/-- The all-zero grid, `np.zeros(shape)`. -/
def gzeros {ι : Type} : GeoGrid ι := fun _ => some (0 : ℝ)

noncomputable section

/-- NumPy `np.clip(x, lo, hi) = np.minimum(np.maximum(x, lo), hi)` on scalars. -/
def clipR (x lo hi : ℝ) : ℝ := min (max x lo) hi

/-- Standard normal CDF as implemented in `sundex_v2.py` / `app.py`:
`0.5 * (1 + erf(x / sqrt(2)))`, with the external `math.erf` abstracted as a
function parameter. -/
def norm_cdf (erf : ℝ → ℝ) (x : ℝ) : ℝ := 0.5 * (1 + erf (x / Real.sqrt 2))

/-- Solar fraction of `calculate_good_days` (`app.py`) and
`estimate_good_days_from_monthly` (`sundex_v2.py`): `1 - norm_cdf((solar_min - soltrans) / 0.12)`. -/
def frac_good_solar (erf : ℝ → ℝ) (solar_min s : ℝ) : ℝ :=
  1 - norm_cdf erf ((solar_min - s) / 0.12)

/-- Dry fraction of `app.py` `calculate_good_days`:
`np.clip(0.95 - (daily_precip_avg / (precip_max * 6)), 0.10, 0.95)` where
`daily_precip_avg = ppt / days_in_month`. -/
def app_frac_dry (precip_max d p : ℝ) : ℝ :=
  clipR (0.95 - (p / d) / (precip_max * 6)) 0.10 0.95

/-- Dry fraction of `sundex_v2.py` `estimate_good_days_from_monthly`:
`np.clip(0.95 - (daily_precip_avg / 15), 0.15, 0.95)`. -/
def v2_frac_dry (d p : ℝ) : ℝ :=
  clipR (0.95 - (p / d) / 15) 0.15 0.95

/-- Dry fraction of the JavaScript `calculateGoodDays` in `build_webapp_v2.py`:
`Math.max(0.05, Math.min(0.95, 0.95 - dailyPrecip / (state.precipMax * 8)))`. -/
def webapp2_frac_dry (precip_max d p : ℝ) : ℝ :=
  max 0.05 (min 0.95 (0.95 - (p / d) / (precip_max * 8)))

/-- Warm fraction of both Python estimators:
`np.clip(1 - norm_cdf((temp_min - tmean) / 5), 0.1, 1.0)`. -/
def frac_warm_enough (erf : ℝ → ℝ) (temp_min t : ℝ) : ℝ :=
  clipR (1 - norm_cdf erf ((temp_min - t) / 5)) 0.1 1.0

/-- Accumulators of `app.py` `calculate_good_days`. -/
structure AppAcc (ι : Type) where
  combined : GeoGrid ι
  solar : GeoGrid ι
  dry : GeoGrid ι

/-- The per-month accumulator update of `app.py` `calculate_good_days`
(lines 152-170), given the three monthly grids and the day count `d`. -/
def appCompute {ι : Type} (erf : ℝ → ℝ) (solar_min precip_max temp_min : ℝ)
    (soltrans ppt tmean : GeoGrid ι) (d : ℝ) (acc : AppAcc ι) : AppAcc ι :=
  let fS := gmap (frac_good_solar erf solar_min) soltrans
  let fD := gmap (app_frac_dry precip_max d) ppt
  let fW := gmap (frac_warm_enough erf temp_min) tmean
  let fC := gmul (gmul fS fD) fW
  ⟨gadd acc.combined (gscale fC d),
   gadd acc.solar (gscale fS d),
   gadd acc.dry (gscale fD d)⟩

/-- One iteration of the month loop of `app.py` `calculate_good_days`
(lines 145-170).  `none` models an uncaught `KeyError` when one of the three
variable keys is absent from `monthly_data`; a month whose grid is absent for
one of the three variables is skipped. -/
def appMonthStep {ι : Type} (erf : ℝ → ℝ) (data : MonthlyData ι)
    (solar_min precip_max temp_min : ℝ) (acc : AppAcc ι) (md : ℕ × ℕ) :
    Option (AppAcc ι) :=
  match alookup data Var.soltrans, alookup data Var.ppt, alookup data Var.tmean with
  | some solM, some pptM, some tmM =>
    match alookup solM md.1, alookup pptM md.1, alookup tmM md.1 with
    | some soltrans, some ppt, some tmean =>
      some (appCompute erf solar_min precip_max temp_min soltrans ppt tmean
        ((md.2 : ℕ) : ℝ) acc)
    | _, _, _ => some acc
  | _, _, _ => none

/-- The month loop: run the per-month step over the month list, stopping with
`none` if an iteration raises. -/
def runMonths {Acc : Type} (step : Acc → (ℕ × ℕ) → Option Acc) :
    Acc → List (ℕ × ℕ) → Option Acc
  | acc, [] => some acc
  | acc, md :: rest =>
    match step acc md with
    | some acc2 => runMonths step acc2 rest
    | none => none

/-- The `shape` extraction of `calculate_good_days` / `estimate_good_days_from_monthly`:
true iff some variable has at least one loaded grid (otherwise `np.zeros(None)`
raises `TypeError`). -/
def hasAnyGrid {ι : Type} (data : MonthlyData ι) : Bool :=
  data.any (fun p => !p.2.isEmpty)

/-- The month table `WINTER_MONTHS = \x7b10: 31, 11: 30, 12: 31, 1: 31, 2: 28, 3: 31, 4: 30\x7d` as the
ordered (month, days-in-month) list the Python loops iterate over. -/
def winterMonths : List (ℕ × ℕ) :=
  [(10, 31), (11, 30), (12, 31), (1, 31), (2, 28), (3, 31), (4, 30)]

/-- Function `calculate_good_days` of `app.py`, with the iterated month set as a parameter
(the script fixes it to `winterMonths`).  Returns `none` when the Python code
raises (no grid at all to take a shape from, or a missing variable key). -/
def calculate_good_days {ι : Type} (erf : ℝ → ℝ) (months : List (ℕ × ℕ))
    (data : MonthlyData ι) (solar_min precip_max temp_min : ℝ) :
    Option (AppAcc ι) :=
  if hasAnyGrid data then
    runMonths (appMonthStep erf data solar_min precip_max temp_min)
      ⟨gzeros, gzeros, gzeros⟩ months
  else none

/-- Threshold configuration of `sundex_v2.py` (`DEFAULT_THRESHOLDS` keys). -/
structure Thresholds where
  solar_min : ℝ
  precip_max : ℝ
  temp_min : ℝ
  temp_max : ℝ

/-- Accumulators of `sundex_v2.py` `estimate_good_days_from_monthly`. -/
structure V2Acc (ι : Type) where
  solar : GeoGrid ι
  dry : GeoGrid ι
  temp : GeoGrid ι
  combined : GeoGrid ι

/-- The per-month accumulator update of `sundex_v2.py`
`estimate_good_days_from_monthly` (lines 208-252). -/
def v2Compute {ι : Type} (erf : ℝ → ℝ) (thresholds : Thresholds)
    (soltrans ppt tmean : GeoGrid ι) (d : ℝ) (acc : V2Acc ι) : V2Acc ι :=
  let fS := gmap (frac_good_solar erf thresholds.solar_min) soltrans
  let fD := gmap (v2_frac_dry d) ppt
  let fW := gmap (frac_warm_enough erf thresholds.temp_min) tmean
  let fC := gmul (gmul fS fD) fW
  ⟨gadd acc.solar (gscale fS d),
   gadd acc.dry (gscale fD d),
   gadd acc.temp (gscale fW d),
   gadd acc.combined (gscale fC d)⟩

/-- One iteration of the month loop of `sundex_v2.py`
`estimate_good_days_from_monthly` (lines 199-259).  Note the dry fraction
divides the average daily precipitation by the constant `15`; the bound
`precip_threshold = thresholds['precip_max']` of line 225 is never used. -/
def v2MonthStep {ι : Type} (erf : ℝ → ℝ) (data : MonthlyData ι)
    (thresholds : Thresholds) (acc : V2Acc ι) (md : ℕ × ℕ) :
    Option (V2Acc ι) :=
  match alookup data Var.soltrans, alookup data Var.ppt, alookup data Var.tmean with
  | some solM, some pptM, some tmM =>
    match alookup solM md.1, alookup pptM md.1, alookup tmM md.1 with
    | some soltrans, some ppt, some tmean =>
      some (v2Compute erf thresholds soltrans ppt tmean ((md.2 : ℕ) : ℝ) acc)
    | _, _, _ => some acc
  | _, _, _ => none

/-- Result record of `estimate_good_days_from_monthly`. -/
structure V2Result (ι : Type) where
  good_days : GeoGrid ι
  good_days_solar : GeoGrid ι
  good_days_dry : GeoGrid ι
  good_days_temp : GeoGrid ι
  total_days : ℕ

/-- Function `estimate_good_days_from_monthly` of `sundex_v2.py`, with the month set as a
parameter (the script fixes it to `winterMonths`).  `none` models the
exceptions raised on a missing reference shape (`np.zeros(None)`) or a missing
variable key. -/
def estimate_good_days_from_monthly {ι : Type} (erf : ℝ → ℝ)
    (months : List (ℕ × ℕ)) (data : MonthlyData ι) (thresholds : Thresholds) :
    Option (V2Result ι) :=
  if hasAnyGrid data then
    (runMonths (v2MonthStep erf data thresholds) ⟨gzeros, gzeros, gzeros, gzeros⟩
        months).map
      (fun acc =>
        ⟨acc.combined, acc.solar, acc.dry, acc.temp, (months.map Prod.snd).sum⟩)
  else none

/-- Combined-good-days grid of an `app.py` run, `none`-valued if the run raised. -/
def appCombined {ι : Type} (r : Option (AppAcc ι)) : GeoGrid ι :=
  fun c => match r with
  | some acc => acc.combined c
  | none => none

/-- Solar-good-days grid of an `app.py` run. -/
def appSolar {ι : Type} (r : Option (AppAcc ι)) : GeoGrid ι :=
  fun c => match r with
  | some acc => acc.solar c
  | none => none

/-- Dry-good-days grid of an `app.py` run. -/
def appDry {ι : Type} (r : Option (AppAcc ι)) : GeoGrid ι :=
  fun c => match r with
  | some acc => acc.dry c
  | none => none

/-- Combined-good-days grid of a `sundex_v2.py` run. -/
def v2Combined {ι : Type} (r : Option (V2Result ι)) : GeoGrid ι :=
  fun c => match r with
  | some res => res.good_days c
  | none => none

/-- Solar-good-days grid of a `sundex_v2.py` run. -/
def v2Solar {ι : Type} (r : Option (V2Result ι)) : GeoGrid ι :=
  fun c => match r with
  | some res => res.good_days_solar c
  | none => none

/-- Dry-good-days grid of a `sundex_v2.py` run. -/
def v2Dry {ι : Type} (r : Option (V2Result ι)) : GeoGrid ι :=
  fun c => match r with
  | some res => res.good_days_dry c
  | none => none

/-- Temperature-good-days grid of a `sundex_v2.py` run. -/
def v2Temp {ι : Type} (r : Option (V2Result ι)) : GeoGrid ι :=
  fun c => match r with
  | some res => res.good_days_temp c
  | none => none

/-- Total real days described by a (month, days) list. -/
def daysSum (months : List (ℕ × ℕ)) : ℝ :=
  ((months.map (fun md => ((md.2 : ℕ) : ℝ))).sum)

end

/-! ### Raster window loader, grid aligner and temporal aggregator

A raster file is abstracted to what `rasterio` hands the scripts for the fixed
bounding-box window: the windowed read (`rows × cols` raw samples), the
declared nodata value, and the window transform (an opaque value of type `τ`).
-/

/-- A shaped grid: `rows × cols` cells, `none` = NaN.  `cell` is only
meaningful on indices `i < rows`, `j < cols`. -/
structure SGrid where
  rows : ℕ
  cols : ℕ
  cell : ℕ → ℕ → Option ℝ

/-- An openable raster file, reduced to the data the scripts consume: the
windowed read for the fixed bounds, the declared nodata value (`none` when the
file declares none), and the window transform. -/
structure RFile (τ : Type) where
  rows : ℕ
  cols : ℕ
  sample : ℕ → ℕ → ℝ
  nodata : Option ℝ
  transform : τ

noncomputable section
open Classical in
/-- The effective nodata value, `src.nodata if src.nodata else -9999`
(Python truthiness: `None` and `0.0` both select the default). -/
def chooseNodata : Option ℝ → ℝ
  | none => -9999
  | some v => if v = 0 then -9999 else v

open Classical in
/-- The windowed read with nodata substituted,
`np.where(data == nodata, np.nan, data)`. -/
def maskGrid {τ : Type} (f : RFile τ) : SGrid :=
  ⟨f.rows, f.cols,
    fun i j => if f.sample i j = chooseNodata f.nodata then none else some (f.sample i j)⟩

/-- Crop/pad a grid to a target shape: `new_data = np.full(target_shape, np.nan);`
`new_data[:min_rows, :min_cols] = data[:min_rows, :min_cols]`. -/
def conformTo (ts : ℕ × ℕ) (g : SGrid) : SGrid :=
  ⟨ts.1, ts.2,
    fun i j => if i < min g.rows ts.1 ∧ j < min g.cols ts.2 then g.cell i j else none⟩

/-- Function `load_raster_wa` of `sundex_v2.py` / `sundex.py` (also the loading body of
`load_monthly_data` in `app.py` / `build_webapp_v2.py`): windowed read, nodata
substitution, then crop/pad to `target_shape` when one is supplied and the
shapes differ. -/
def load_raster_wa {τ : Type} (f : RFile τ) (target_shape : Option (ℕ × ℕ)) :
    SGrid × τ :=
  (match target_shape with
   | some ts =>
     if ((maskGrid f).rows, (maskGrid f).cols) = ts then maskGrid f
     else conformTo ts (maskGrid f)
   | none => maskGrid f,
   f.transform)

/-- Mutable state of the `load_monthly_data` loop. -/
structure LoadState (τ : Type) where
  result : List (Var × ℕ × SGrid)
  transform : Option τ
  target_shape : Option (ℕ × ℕ)

/-- One load of the `load_monthly_data` loop: load the raster (conforming to
the current target shape), and set the reference transform and shape iff they
are still unset. -/
def loadStep {τ : Type} (st : LoadState τ) (e : Var × ℕ × RFile τ) : LoadState τ :=
  let gt := load_raster_wa e.2.2 st.target_shape
  { result := st.result ++ [(e.1, e.2.1, gt.1)]
    transform := match st.transform with
      | none => some gt.2
      | some t0 => some t0
    target_shape := match st.target_shape with
      | none => some (gt.1.rows, gt.1.cols)
      | some s0 => some s0 }

/-- Function `load_monthly_data` (`sundex_v2.py` lines 143-160, same logic in `app.py`
and `build_webapp_v2.py`): iterate the catalog entries in order, threading the
reference transform/shape established by the first load. -/
def load_monthly_data {τ : Type} (entries : List (Var × ℕ × RFile τ)) : LoadState τ :=
  entries.foldl loadStep ⟨[], none, none⟩

/-- NumPy `np.nanmean` across a stack at one cell: the mean of the non-NaN values,
NaN when all are NaN. -/
def nanmeanCells (l : List (Option ℝ)) : Option ℝ :=
  let v := l.filterMap id
  if v.isEmpty then none else some (v.sum / (v.length : ℝ))

/-- The per-variable alignment and averaging of `load_and_average_data`
(`build_webapp.py` lines 84-97): conform every array of this variable to the
shape of this variable's FIRST array, then `np.nanmean` across the stack. -/
def averageVar (arrays : List SGrid) : Option SGrid :=
  match arrays with
  | [] => none
  | a0 :: _ =>
    let ts := (a0.rows, a0.cols)
    let aligned := arrays.map (fun g => if (g.rows, g.cols) = ts then g else conformTo ts g)
    some ⟨ts.1, ts.2, fun i j => nanmeanCells (aligned.map (fun g => g.cell i j))⟩

/-- One monthly load inside `load_and_average_data`: read and mask the file
(no conforming at load time), setting the global transform iff it is still
unset. -/
def loadOneFile {τ : Type} (acc : List SGrid × Option τ) (f : RFile τ) :
    List SGrid × Option τ :=
  (acc.1 ++ [maskGrid f],
   match acc.2 with
   | none => some f.transform
   | some t0 => some t0)

/-- The monthly loads of one variable in `load_and_average_data`. -/
def loadVarArrays {τ : Type} (tr0 : Option τ) (files : List (RFile τ)) :
    List SGrid × Option τ :=
  files.foldl loadOneFile ([], tr0)

/-- One variable's processing in `load_and_average_data`. -/
def avStep {τ : Type} (acc : List (Var × SGrid) × Option τ)
    (vf : Var × List (RFile τ)) : List (Var × SGrid) × Option τ :=
  (match averageVar (loadVarArrays acc.2 vf.2).1 with
   | some avg => acc.1 ++ [(vf.1, avg)]
   | none => acc.1,
   (loadVarArrays acc.2 vf.2).2)

/-- Function `load_and_average_data` (`build_webapp.py` lines 58-99): per variable, load
its monthly arrays, align them to that variable's first array and average.
The transform is taken from the first file loaded in the whole run. -/
def load_and_average_data {τ : Type} (varFiles : List (Var × List (RFile τ))) :
    List (Var × SGrid) × Option τ :=
  varFiles.foldl avStep ([], none)

/-- Concatenation of a list of lists (row-major flattening of the blocks). -/
def catLists {α : Type} : List (List α) → List α
  | [] => []
  | l :: ls => l ++ catLists ls

/-- The `factor × factor` source block of output cell (i, j), row-major
(`arr[i*factor:(i+1)*factor, j*factor:(j+1)*factor]`). -/
def blockCells (g : SGrid) (factor i j : ℕ) : List (Option ℝ) :=
  catLists ((List.range factor).map
    (fun di => (List.range factor).map
      (fun dj => g.cell (i * factor + di) (j * factor + dj))))

/-- Block downsampler of `build_webapp.py` / `build_webapp_v2.py`: output shape
`(h // factor, w // factor)`; each output cell is `np.mean` of the non-NaN
samples of its `factor × factor` source block, NaN when the block has none. -/
def downsample (g : SGrid) (factor : ℕ) : SGrid :=
  ⟨g.rows / factor, g.cols / factor,
    fun i j =>
      let valid := (blockCells g factor i j).filterMap id
      if valid.isEmpty then none else some (valid.sum / (valid.length : ℝ))⟩

end

/-! ### Catalog resolver

Directory and file names are modelled as `List Char`; the directory listing of
the data directory is an ordered list of entries (the `os.listdir` order).
-/

/-- One entry of the data directory listing. -/
structure DirEntry where
  name : List Char
  isDir : Bool
  files : List (List Char)
deriving DecidableEq

/-- A resolved file path, `os.path.join(item_path, f)`: directory name paired
with file name. -/
abbrev RPath : Type := List Char × List Char

/-- Python `item.lower()`. -/
def lowerName (s : List Char) : List Char := s.map Char.toLower

/-- Python `pat in s` (contiguous substring test). -/
def isInfixL (pat s : List Char) : Bool :=
  (List.range (s.length + 1)).any (fun i => decide ((s.drop i).take pat.length = pat))

/-- Python `s.endswith(pat)`. -/
def endsWithL (s pat : List Char) : Bool :=
  decide (pat.length ≤ s.length) && decide (s.drop (s.length - pat.length) = pat)

/-- Accumulator-based split on `'_'`, Python `item.split('_')` semantics
(keeps empty segments). -/
def splitUAux : List Char → List Char → List (List Char)
  | [], cur => [cur.reverse]
  | c :: rest, cur =>
    if c = '_' then cur.reverse :: splitUAux rest [] else splitUAux rest (c :: cur)

/-- Python `item.split('_')`. -/
def splitU (s : List Char) : List (List Char) := splitUAux s []

/-- Python `str.isdigit` (ASCII inputs): nonempty and all digits. -/
def pyIsDigit (p : List Char) : Bool := !p.isEmpty && p.all Char.isDigit

/-- Python `int(p)` for a digit string. -/
def natOfDigits (p : List Char) : ℕ :=
  p.foldl (fun n c => 10 * n + (c.toNat - 48)) 0

/-- Scan of the old-format name segments: the first segment equal to `"bil"`
whose predecessor is a two-digit string yields the month. -/
def monthBilAux : List Char → List (List Char) → Option ℕ
  | _, [] => none
  | prev, p :: rest =>
    if p = "bil".toList ∧ (pyIsDigit prev = true ∧ prev.length = 2) then
      some (natOfDigits prev)
    else monthBilAux p rest

/-- Month extraction for `..._MM_bil` names. -/
def monthFromBil : List (List Char) → Option ℕ
  | [] => none
  | p :: rest => monthBilAux p rest

/-- Month extraction for `..._YYYYMM_..._avg_30y` names: last two digits of the
first six-digit segment. -/
def monthFromAvg (parts : List (List Char)) : Option ℕ :=
  parts.findSome? (fun p =>
    if p.length = 6 ∧ pyIsDigit p = true then some (natOfDigits (p.drop 4)) else none)

/-- Variable identifiers in `paths.keys()` order with their name strings. -/
def varNames : List (Var × List Char) :=
  [(Var.ppt, "ppt".toList), (Var.soltrans, "soltrans".toList),
   (Var.tmean, "tmean".toList), (Var.tdmean, "tdmean".toList)]

/-- First variable whose identifier occurs in the lowered directory name. -/
def firstVar (low : List Char) : Option Var :=
  (varNames.find? (fun vn => isInfixL vn.2 low)).map Prod.fst

/-- Helper `find_raster_file`: the first file of the directory with a `.bil` or
`.tif` extension. -/
def isRasterName (f : List Char) : Bool :=
  endsWithL f ".bil".toList || endsWithL f ".tif".toList

/-- Python `find_raster_file(pattern_dir)`. -/
def find_raster_file (e : DirEntry) : Option (List Char) :=
  if e.isDir then e.files.find? isRasterName else none

/-- Month extraction for a directory name: the `_bil` convention takes
priority, then `avg_30y`; otherwise no month. -/
def dirMonth (e : DirEntry) : Option ℕ :=
  if isInfixL "_bil".toList (lowerName e.name) then monthFromBil (splitU e.name)
  else if isInfixL "avg_30y".toList (lowerName e.name) then
    monthFromAvg (splitU e.name)
  else none

/-- Classification of one directory entry by the `get_file_paths` loop body:
skip non-directories and `800m` products, assign the first matching variable,
extract the month by the `_bil` or `avg_30y` convention, and (Python `if
month:`) require a truthy month and a raster file.  Returns the
(variable, month, path) update the entry contributes, if any. -/
def classifyDir (e : DirEntry) : Option (Var × ℕ × RPath) :=
  if e.isDir = false then none
  else if isInfixL "800m".toList (lowerName e.name) then none
  else
    match firstVar (lowerName e.name) with
    | none => none
    | some v =>
      match dirMonth e with
      | some m =>
        if m ≠ 0 then
          match find_raster_file e with
          | some f => some (v, m, (e.name, f))
          | none => none
        else none
      | none => none

/-- Overwrite the (variable, month) slot of the path table
(`paths[var][month] = raster_file`). -/
def updatePaths (acc : Var → ℕ → Option RPath) (v : Var) (m : ℕ) (p : RPath) :
    Var → ℕ → Option RPath :=
  fun v2 m2 => if v2 = v ∧ m2 = m then some p else acc v2 m2

/-- The loop body of `get_file_paths`: fold one listing entry into the table. -/
def applyDir (acc : Var → ℕ → Option RPath) (e : DirEntry) : Var → ℕ → Option RPath :=
  match classifyDir e with
  | some vmp => updatePaths acc vmp.1 vmp.2.1 vmp.2.2
  | none => acc

/-- Function `get_file_paths` (`sundex_v2.py` lines 70-115, identical logic in `app.py`
and the build scripts): fold the classification of every listing entry, in
listing order, into the path table. -/
def get_file_paths (listing : List DirEntry) : Var → ℕ → Option RPath :=
  listing.foldl applyDir (fun _ _ => none)

/-- The (variable, month)-relevant contribution of a single directory entry. -/
def pickDir (e : DirEntry) (v : Var) (m : ℕ) : Option RPath :=
  match classifyDir e with
  | some vmp => if v = vmp.1 ∧ m = vmp.2.1 then some vmp.2.2 else none
  | none => none

/-- Specification-side description of the scan outcome: the contribution of
the LAST entry (in listing order) that classifies to the given
(variable, month). -/
def lastHit (listing : List DirEntry) (v : Var) (m : ℕ) : Option RPath :=
  listing.reverse.findSome? (fun e => pickDir e v m)

/-- Old-format PRISM directory resolving to (ppt, January). -/
def dirBilPpt01 : DirEntry :=
  ⟨"PRISM_ppt_30yr_normal_4kmM4_01_bil".toList, true, ["PRISM_ppt.bil".toList]⟩

/-- New-format directory also resolving to (ppt, January). -/
def dirAvgPpt01 : DirEntry :=
  ⟨"prism_ppt_us_25m_202001_avg_30y".toList, true, ["ppt_jan.tif".toList]⟩

noncomputable section

/-- A raster file that declares nodata = 0 and contains the samples 0 and
-9999. -/
def rfileZeroNodata : RFile ℕ :=
  ⟨1, 2, fun _ j => if j = 0 then (0 : ℝ) else -9999, some 0, 0⟩

/-- A raster file with declared nodata 5 and constant sample 3. -/
def rfileNodata5 : RFile ℕ := ⟨1, 1, fun _ _ => (3 : ℝ), some 5, 0⟩

/-- Concrete monthly data over a one-cell grid: October only, soltrans 0.5,
ppt 0, tmean 0. -/
def oneCellData : MonthlyData Unit :=
  [(Var.ppt, [(10, fun _ => some 0)]),
   (Var.soltrans, [(10, fun _ => some 0.5)]),
   (Var.tmean, [(10, fun _ => some 0)]),
   (Var.tdmean, [])]

/-- The `DEFAULT_THRESHOLDS` record of `sundex_v2.py`. -/
def DEFAULT_THRESHOLDS : Thresholds := ⟨0.40, 2.5, -5, 20⟩

/-- Specification-side dry-day formula of the spec (section 4.4):
`clip(0.95 - dailyPrecip / (precipMax * k), floor, 0.95)` with tunable
`k` and `floor`. -/
def claimDryFrac (k floor precip_max d p : ℝ) : ℝ :=
  clipR (0.95 - (p / d) / (precip_max * k)) floor 0.95

/-- Ordering invariant of the `app.py` accumulators: wherever the combined
grid is non-missing, the solar and dry grids are non-missing and bound it
from above. -/
def AppAccLe {ι : Type} (acc : AppAcc ι) : Prop :=
  ∀ (cell : ι) (c : ℝ), acc.combined cell = some c →
    (∃ s, acc.solar cell = some s ∧ c ≤ s) ∧
    (∃ dd, acc.dry cell = some dd ∧ c ≤ dd)

/-- Ordering invariant of the `sundex_v2.py` accumulators. -/
def V2AccLe {ι : Type} (acc : V2Acc ι) : Prop :=
  ∀ (cell : ι) (c : ℝ), acc.combined cell = some c →
    (∃ s, acc.solar cell = some s ∧ c ≤ s) ∧
    (∃ dd, acc.dry cell = some dd ∧ c ≤ dd) ∧
    (∃ t, acc.temp cell = some t ∧ c ≤ t)

/-- The month `md` is evaluated (all three variable grids exist) and at least
one of the three inputs is missing (NaN) at the given cell. -/
def v2MissingAt {ι : Type} (data : MonthlyData ι) (md : ℕ × ℕ) (cell : ι) : Prop :=
  ∃ solM pptM tmM soltrans ppt tmean,
    alookup data Var.soltrans = some solM ∧ alookup data Var.ppt = some pptM ∧
    alookup data Var.tmean = some tmM ∧
    alookup solM md.1 = some soltrans ∧ alookup pptM md.1 = some ppt ∧
    alookup tmM md.1 = some tmean ∧
    (soltrans cell = none ∨ ppt cell = none ∨ tmean cell = none)

/-- The transform of the first raster file loaded in a
`load_and_average_data` run (variables in order, then months in order). -/
def firstTransform {τ : Type} (varFiles : List (Var × List (RFile τ))) : Option τ :=
  ((catLists (varFiles.map Prod.snd)).head?).map RFile.transform

/-- Monthly data with the four variable keys present but no loaded grids. -/
def emptyMonthlyData : MonthlyData Unit :=
  [(Var.ppt, []), (Var.soltrans, []), (Var.tmean, []), (Var.tdmean, [])]

/-- Monthly data for October only in which the soltrans grid exists but is
missing (NaN) at the single cell, while ppt and tmean are present. -/
def solMissingData : MonthlyData Unit :=
  [(Var.ppt, [(10, fun _ => some 0)]),
   (Var.soltrans, [(10, fun _ => none)]),
   (Var.tmean, [(10, fun _ => some 0)]),
   (Var.tdmean, [])]

/-- A 2x2-window raster file with transform token 7. -/
def fileSmall : RFile ℕ := ⟨2, 2, fun _ _ => 1, none, 7⟩

/-- A 3x3-window raster file with transform token 8. -/
def fileLarge : RFile ℕ := ⟨3, 3, fun _ _ => 1, none, 8⟩

/-- Two variables whose (single) monthly files have different window shapes. -/
def twoResFiles : List (Var × List (RFile ℕ)) :=
  [(Var.ppt, [fileSmall]), (Var.soltrans, [fileLarge])]

/-- A 2x2 grid with exactly one valid sample (value 4 at the origin). -/
def c9Grid : SGrid := ⟨2, 2, fun i j => if i = 0 ∧ j = 0 then some 4 else none⟩

end

/-! ## Theorems -/

theorem findSome?_append {α β : Type _} (l1 l2 : List α) (f : α → Option β) :
    (l1 ++ l2).findSome? f =
      match l1.findSome? f with
      | some b => some b
      | none => l2.findSome? f := by
  induction l1 with
  | nil => simp [List.findSome?]
  | cons a l ih =>
    simp only [List.cons_append, List.findSome?]
    cases f a with
    | some b => rfl
    | none => exact ih

theorem lastHit_cons (e : DirEntry) (l : List DirEntry) (v : Var) (m : ℕ) :
    lastHit (e :: l) v m =
      match lastHit l v m with
      | some p => some p
      | none => pickDir e v m := by
  unfold lastHit
  rw [List.reverse_cons, findSome?_append]
  cases (l.reverse.findSome? fun e2 => pickDir e2 v m) with
  | some p => rfl
  | none =>
    show List.findSome? _ [e] = _
    rw [List.findSome?]
    cases pickDir e v m <;> rfl

theorem get_file_paths_foldl_eq (l : List DirEntry) :
    ∀ (acc : Var → ℕ → Option RPath) (v : Var) (m : ℕ),
      (l.foldl applyDir acc) v m =
        match lastHit l v m with
        | some p => some p
        | none => acc v m := by
  induction l with
  | nil => intro acc v m; simp [lastHit, List.findSome?]
  | cons e l ih =>
    intro acc v m
    rw [List.foldl_cons, ih, lastHit_cons]
    cases h : lastHit l v m with
    | some p => rfl
    | none =>
      unfold pickDir applyDir
      cases hc : classifyDir e with
      | none => rfl
      | some vmp =>
        unfold updatePaths
        by_cases hvm : v = vmp.1 ∧ m = vmp.2.1
        · simp [hvm]
        · simp [hvm]

/-- C6 counterexample: two qualifying directories for (ppt, month 1); the
catalog maps (ppt, 1) to the SECOND one's file, so the first discovered does
not win and a later discovery does replace an earlier entry. -/
theorem c6_first_wins_counterexample :
    classifyDir dirBilPpt01 =
        some (Var.ppt, 1, ("PRISM_ppt_30yr_normal_4kmM4_01_bil".toList,
          "PRISM_ppt.bil".toList))
    ∧ classifyDir dirAvgPpt01 =
        some (Var.ppt, 1, ("prism_ppt_us_25m_202001_avg_30y".toList,
          "ppt_jan.tif".toList))
    ∧ get_file_paths [dirBilPpt01, dirAvgPpt01] Var.ppt 1 =
        some ("prism_ppt_us_25m_202001_avg_30y".toList, "ppt_jan.tif".toList)
    ∧ get_file_paths [dirBilPpt01, dirAvgPpt01] Var.ppt 1 ≠
        some ("PRISM_ppt_30yr_normal_4kmM4_01_bil".toList,
          "PRISM_ppt.bil".toList) := by
  refine ⟨by decide, by decide, by decide, by decide⟩

/-- C6 (amended): the catalog result is a single-valued table (at most one
path per (variable, month)); the path recorded for a pair is the contribution
of the LAST listing entry that classifies to that pair (later discoveries
replace earlier ones); and within one classified directory the first file with
an allowed raster extension is the one selected. -/
theorem c6_catalog_resolution :
    (∀ (listing : List DirEntry) (v : Var) (m : ℕ),
      get_file_paths listing v m = lastHit listing v m)
    ∧ (∀ (e : DirEntry) (v : Var) (m : ℕ) (p : RPath),
      classifyDir e = some (v, m, p) →
        e.files.find? isRasterName = some p.2 ∧ p.1 = e.name) := by
  constructor
  · intro listing v m
    unfold get_file_paths
    rw [get_file_paths_foldl_eq]
    cases lastHit listing v m <;> rfl
  · intro e v m p hc
    obtain ⟨p1, p2⟩ := p
    unfold classifyDir at hc
    by_cases hd : e.isDir = false
    · rw [if_pos hd] at hc; exact absurd hc (by simp)
    rw [if_neg hd] at hc
    by_cases h8 : isInfixL "800m".toList (lowerName e.name) = true
    · rw [if_pos h8] at hc; exact absurd hc (by simp)
    rw [if_neg h8] at hc
    cases hv : firstVar (lowerName e.name) with
    | none => rw [hv] at hc; exact absurd hc (by simp)
    | some v0 =>
      simp only [hv] at hc
      cases hm : dirMonth e with
      | none => simp only [hm] at hc; exact absurd hc (by simp)
      | some m0 =>
        simp only [hm] at hc
        by_cases hz : m0 ≠ 0
        · rw [if_pos hz] at hc
          cases hf : find_raster_file e with
          | none => simp only [hf] at hc; exact absurd hc (by simp)
          | some f =>
            simp only [hf, Option.some.injEq, Prod.mk.injEq] at hc
            obtain ⟨_, _, hn, hf2⟩ := hc
            have hdt : e.isDir = true := by revert hd; cases e.isDir <;> simp
            unfold find_raster_file at hf
            rw [hdt, if_pos rfl] at hf
            exact ⟨hf2 ▸ hf, hn.symm⟩
        · rw [if_neg hz] at hc; exact absurd hc (by simp)

/-- Witness for `c6_catalog_resolution` at the concrete two-directory listing. -/
theorem c6_catalog_resolution_witness :
    get_file_paths [dirBilPpt01, dirAvgPpt01] Var.ppt 1 =
        lastHit [dirBilPpt01, dirAvgPpt01] Var.ppt 1
    ∧ dirBilPpt01.files.find? isRasterName = some "PRISM_ppt.bil".toList := by
  refine ⟨c6_catalog_resolution.1 _ _ _, ?_⟩
  have h := c6_catalog_resolution.2 dirBilPpt01 Var.ppt 1
    ("PRISM_ppt_30yr_normal_4kmM4_01_bil".toList, "PRISM_ppt.bil".toList)
    (by decide)
  exact h.1

/-- C7 counterexample: a file that DECLARES nodata = 0.  The code selects the
default -9999 instead of the declared value (Python truthiness of `0.0`), so a
sample equal to the declared nodata value 0 is NOT replaced by NaN, while the
sample -9999 is replaced. -/
theorem c7_declared_nodata_counterexample :
    chooseNodata (some 0) = -9999
    ∧ chooseNodata (some 0) ≠ 0
    ∧ (maskGrid rfileZeroNodata).cell 0 0 = some 0
    ∧ (maskGrid rfileZeroNodata).cell 0 1 = none := by
  have h0 : chooseNodata (some (0 : ℝ)) = -9999 := by
    show (if (0 : ℝ) = 0 then (-9999 : ℝ) else 0) = -9999
    rw [if_pos rfl]
  refine ⟨h0, by rw [h0]; norm_num, ?_, ?_⟩
  · show (if rfileZeroNodata.sample 0 0 = chooseNodata rfileZeroNodata.nodata
        then none else some (rfileZeroNodata.sample 0 0)) = some 0
    have hs : rfileZeroNodata.sample 0 0 = (0 : ℝ) := by
      show (if (0 : ℕ) = 0 then (0 : ℝ) else -9999) = 0
      rw [if_pos rfl]
    have hn : rfileZeroNodata.nodata = some (0 : ℝ) := rfl
    rw [hs, hn, h0, if_neg (by norm_num)]
  · show (if rfileZeroNodata.sample 0 1 = chooseNodata rfileZeroNodata.nodata
        then none else some (rfileZeroNodata.sample 0 1)) = none
    have hs : rfileZeroNodata.sample 0 1 = (-9999 : ℝ) := by
      show (if (1 : ℕ) = 0 then (0 : ℝ) else -9999) = -9999
      rw [if_neg (by norm_num)]
    have hn : rfileZeroNodata.nodata = some (0 : ℝ) := rfl
    rw [hs, hn, h0, if_pos rfl]

/-- C7 (amended): the declared nodata value is used only when it is declared
AND nonzero; the default -9999 is used both when no nodata is declared and
when the declared value is 0.  A sample becomes NaN exactly when it equals the
value so chosen, and every other sample is passed through unchanged. -/
theorem c7_nodata_substitution :
    (∀ v : ℝ, v ≠ 0 → chooseNodata (some v) = v)
    ∧ chooseNodata none = -9999
    ∧ chooseNodata (some 0) = -9999
    ∧ (∀ (τ : Type) (f : RFile τ) (i j : ℕ),
        ((maskGrid f).cell i j = none ↔ f.sample i j = chooseNodata f.nodata)
        ∧ (f.sample i j ≠ chooseNodata f.nodata →
            (maskGrid f).cell i j = some (f.sample i j))) := by
  refine ⟨fun v hv => ?_, rfl, ?_, fun τ f i j => ?_⟩
  · show (if v = 0 then (-9999 : ℝ) else v) = v
    rw [if_neg hv]
  · show (if (0 : ℝ) = 0 then (-9999 : ℝ) else 0) = -9999
    rw [if_pos rfl]
  · constructor
    · show (if f.sample i j = chooseNodata f.nodata
          then none else some (f.sample i j)) = none ↔ _
      by_cases h : f.sample i j = chooseNodata f.nodata
      · rw [if_pos h]; simp [h]
      · rw [if_neg h]; simp [h]
    · intro h
      show (if f.sample i j = chooseNodata f.nodata
          then none else some (f.sample i j)) = some (f.sample i j)
      rw [if_neg h]

/-- Witness for `c7_nodata_substitution` at concrete inputs. -/
theorem c7_nodata_substitution_witness :
    chooseNodata (some 5) = 5
    ∧ (maskGrid rfileNodata5).cell 0 0 = some (rfileNodata5.sample 0 0) := by
  constructor
  · exact c7_nodata_substitution.1 5 (by norm_num)
  · refine (c7_nodata_substitution.2.2.2 ℕ rfileNodata5 0 0).2 ?_
    have hs : rfileNodata5.sample 0 0 = (3 : ℝ) := rfl
    have hn : rfileNodata5.nodata = some (5 : ℝ) := rfl
    rw [hs, hn, c7_nodata_substitution.1 5 (by norm_num)]
    norm_num

/-! ### Elementwise (NaN-propagating) arithmetic lemmas -/

theorem o1_eq_some {f : ℝ → ℝ} {a : Option ℝ} {c : ℝ} :
    NanReal.o1 f a = some c ↔ ∃ x, a = some x ∧ f x = c := by
  cases a <;> simp [NanReal.o1]

theorem o2_eq_some {f : ℝ → ℝ → ℝ} {a b : Option ℝ} {c : ℝ} :
    NanReal.o2 f a b = some c ↔ ∃ x y, a = some x ∧ b = some y ∧ f x y = c := by
  cases a <;> cases b <;> simp [NanReal.o2]

theorem o2_none_left {f : ℝ → ℝ → ℝ} {b : Option ℝ} : NanReal.o2 f none b = none := by
  cases b <;> rfl

theorem o2_none_right {f : ℝ → ℝ → ℝ} {a : Option ℝ} : NanReal.o2 f a none = none := by
  cases a <;> rfl

/-! ### Bounds on the per-day fractions -/

theorem clipR_bounds (x : ℝ) {lo hi : ℝ} (h : lo ≤ hi) :
    lo ≤ clipR x lo hi ∧ clipR x lo hi ≤ hi := by
  unfold clipR
  exact ⟨le_min (le_max_right x lo) h, min_le_right _ _⟩

theorem norm_cdf_bounds {erf : ℝ → ℝ} (he : ∀ y, -1 ≤ erf y ∧ erf y ≤ 1) (x : ℝ) :
    0 ≤ norm_cdf erf x ∧ norm_cdf erf x ≤ 1 := by
  unfold norm_cdf
  obtain ⟨h1, h2⟩ := he (x / Real.sqrt 2)
  constructor <;> nlinarith

theorem frac_good_solar_bounds {erf : ℝ → ℝ} (he : ∀ y, -1 ≤ erf y ∧ erf y ≤ 1)
    (solar_min s : ℝ) :
    0 ≤ frac_good_solar erf solar_min s ∧ frac_good_solar erf solar_min s ≤ 1 := by
  unfold frac_good_solar
  obtain ⟨h1, h2⟩ := norm_cdf_bounds he ((solar_min - s) / 0.12)
  constructor <;> linarith

theorem app_frac_dry_bounds (precip_max d p : ℝ) :
    0 ≤ app_frac_dry precip_max d p ∧ app_frac_dry precip_max d p ≤ 1 := by
  unfold app_frac_dry
  obtain ⟨h1, h2⟩ := clipR_bounds (0.95 - p / d / (precip_max * 6))
    (show (0.10 : ℝ) ≤ 0.95 by norm_num)
  constructor <;> linarith

theorem v2_frac_dry_bounds (d p : ℝ) :
    0 ≤ v2_frac_dry d p ∧ v2_frac_dry d p ≤ 1 := by
  unfold v2_frac_dry
  obtain ⟨h1, h2⟩ := clipR_bounds (0.95 - p / d / 15)
    (show (0.15 : ℝ) ≤ 0.95 by norm_num)
  constructor <;> linarith

theorem frac_warm_enough_bounds {erf : ℝ → ℝ} (temp_min t : ℝ) :
    0 ≤ frac_warm_enough erf temp_min t ∧ frac_warm_enough erf temp_min t ≤ 1 := by
  unfold frac_warm_enough
  obtain ⟨h1, h2⟩ := clipR_bounds (1 - norm_cdf erf ((temp_min - t) / 5))
    (show (0.1 : ℝ) ≤ 1.0 by norm_num)
  constructor <;> linarith

theorem prod3_bounds {a b c : ℝ} (ha : 0 ≤ a ∧ a ≤ 1) (hb : 0 ≤ b ∧ b ≤ 1)
    (hc : 0 ≤ c ∧ c ≤ 1) : 0 ≤ a * b * c ∧ a * b * c ≤ 1 := by
  obtain ⟨ha0, ha1⟩ := ha
  obtain ⟨hb0, hb1⟩ := hb
  obtain ⟨hc0, hc1⟩ := hc
  constructor
  · positivity
  · have hab : a * b ≤ 1 := mul_le_one ha1 hb0 hb1
    have hab0 : 0 ≤ a * b := mul_nonneg ha0 hb0
    exact mul_le_one hab hc0 hc1

/-! ### Month-loop unfolding and growth lemmas -/

theorem runMonths_nil {Acc : Type} (step : Acc → (ℕ × ℕ) → Option Acc) (acc : Acc) :
    runMonths step acc [] = some acc := rfl

theorem runMonths_cons {Acc : Type} (step : Acc → (ℕ × ℕ) → Option Acc) (acc : Acc)
    (md : ℕ × ℕ) (rest : List (ℕ × ℕ)) :
    runMonths step acc (md :: rest) =
      match step acc md with
      | some acc2 => runMonths step acc2 rest
      | none => none := rfl

theorem daysSum_nil : daysSum [] = 0 := by simp [daysSum]

theorem daysSum_cons (md : ℕ × ℕ) (rest : List (ℕ × ℕ)) :
    daysSum (md :: rest) = (md.2 : ℝ) + daysSum rest := by simp [daysSum]

theorem daysSum_nonneg (months : List (ℕ × ℕ)) : 0 ≤ daysSum months := by
  induction months with
  | nil => simp [daysSum]
  | cons md rest ih =>
    rw [daysSum_cons]
    have : (0 : ℝ) ≤ (md.2 : ℝ) := Nat.cast_nonneg _
    linarith

/-- Per-cell growth of the combined accumulator under one `app.py` month
computation: the combined cell grows by between 0 and `d` days. -/
theorem appCompute_combined_growth {ι : Type} {erf : ℝ → ℝ}
    (he : ∀ y, -1 ≤ erf y ∧ erf y ≤ 1) {solar_min precip_max temp_min : ℝ}
    {soltrans ppt tmean : GeoGrid ι} {d : ℝ} (hd : 0 ≤ d) (acc : AppAcc ι)
    (cell : ι) {w : ℝ}
    (h : (appCompute erf solar_min precip_max temp_min soltrans ppt tmean d
      acc).combined cell = some w) :
    ∃ u, acc.combined cell = some u ∧ u ≤ w ∧ w ≤ u + d := by
  simp only [appCompute, gadd, gscale, gmul, gmap] at h
  rw [o2_eq_some] at h
  obtain ⟨u, w2, hu, hw2, huw⟩ := h
  rw [o1_eq_some] at hw2
  obtain ⟨c, hc, hcd⟩ := hw2
  rw [o2_eq_some] at hc
  obtain ⟨ab, fw, hab, hfw, habw⟩ := hc
  rw [o2_eq_some] at hab
  obtain ⟨fs, fd, hfs, hfd, hfsd⟩ := hab
  rw [o1_eq_some] at hfs hfd hfw
  obtain ⟨s, _, hfs2⟩ := hfs
  obtain ⟨p, _, hfd2⟩ := hfd
  obtain ⟨t, _, hfw2⟩ := hfw
  have bs := frac_good_solar_bounds he solar_min s
  have bd := app_frac_dry_bounds precip_max d p
  have bw := @frac_warm_enough_bounds erf temp_min t
  rw [hfs2] at bs
  rw [hfd2] at bd
  rw [hfw2] at bw
  have hc01 : 0 ≤ c ∧ c ≤ 1 := by
    rw [← habw, ← hfsd]
    exact prod3_bounds bs bd bw
  refine ⟨u, hu, ?_, ?_⟩
  · have : 0 ≤ w2 := by
      rw [← hcd]
      exact mul_nonneg hc01.1 hd
    linarith
  · have : w2 ≤ d := by
      rw [← hcd]
      exact mul_le_of_le_one_left hd hc01.2
    linarith

/-- Per-cell growth across one iteration of the `app.py` month loop. -/
theorem appMonthStep_combined_growth {ι : Type} {erf : ℝ → ℝ}
    (he : ∀ y, -1 ≤ erf y ∧ erf y ≤ 1) {data : MonthlyData ι}
    {solar_min precip_max temp_min : ℝ} {acc acc2 : AppAcc ι} {md : ℕ × ℕ}
    (h : appMonthStep erf data solar_min precip_max temp_min acc md = some acc2)
    (cell : ι) {w : ℝ} (hv : acc2.combined cell = some w) :
    ∃ u, acc.combined cell = some u ∧ u ≤ w ∧ w ≤ u + (md.2 : ℝ) := by
  unfold appMonthStep at h
  split at h
  · split at h
    · injection h with h2
      subst h2
      exact appCompute_combined_growth he (Nat.cast_nonneg _) acc cell hv
    · injection h with h2
      subst h2
      refine ⟨w, hv, le_refl _, ?_⟩
      have : (0 : ℝ) ≤ (md.2 : ℝ) := Nat.cast_nonneg _
      linarith
  · exact absurd h (by simp)

/-- Per-cell growth across the whole `app.py` month loop. -/
theorem runMonths_app_combined_growth {ι : Type} {erf : ℝ → ℝ}
    (he : ∀ y, -1 ≤ erf y ∧ erf y ≤ 1) {data : MonthlyData ι}
    {solar_min precip_max temp_min : ℝ} :
    ∀ (months : List (ℕ × ℕ)) (a out : AppAcc ι),
      runMonths (appMonthStep erf data solar_min precip_max temp_min) a months =
        some out →
      ∀ (cell : ι) (v : ℝ), out.combined cell = some v →
        ∃ u, a.combined cell = some u ∧ u ≤ v ∧ v ≤ u + daysSum months := by
  intro months
  induction months with
  | nil =>
    intro a out h cell v hv
    rw [runMonths_nil] at h
    injection h with h2
    subst h2
    refine ⟨v, hv, le_refl _, by rw [daysSum_nil]; linarith⟩
  | cons md rest ih =>
    intro a out h cell v hv
    rw [runMonths_cons] at h
    cases hstep : appMonthStep erf data solar_min precip_max temp_min a md with
    | none => rw [hstep] at h; exact absurd h (by simp)
    | some a1 =>
      rw [hstep] at h
      obtain ⟨u1, hu1, h1, h2⟩ := ih a1 out h cell v hv
      obtain ⟨u, hu, g1, g2⟩ := appMonthStep_combined_growth he hstep cell hu1
      refine ⟨u, hu, le_trans g1 h1, ?_⟩
      rw [daysSum_cons]
      linarith

/-- C1: for every threshold configuration with `solar_min ∈ [0,1]`,
`precip_max > 0` and any `temp_min`, every month set, and any monthly data,
each non-missing cell `v` of the combined good-days grid satisfies
`0 ≤ v ≤ total days in the evaluated period` (given that the external
`math.erf` stays within `[-1, 1]`). -/
theorem c1_combined_good_days_bounded {ι : Type} (erf : ℝ → ℝ)
    (he : ∀ y, -1 ≤ erf y ∧ erf y ≤ 1) (months : List (ℕ × ℕ))
    (data : MonthlyData ι) (solar_min precip_max temp_min : ℝ)
    (hs0 : 0 ≤ solar_min) (hs1 : solar_min ≤ 1) (hp : 0 < precip_max)
    (cell : ι) (v : ℝ)
    (hv : appCombined
      (calculate_good_days erf months data solar_min precip_max temp_min) cell =
      some v) :
    0 ≤ v ∧ v ≤ daysSum months := by
  unfold appCombined at hv
  cases hr : calculate_good_days erf months data solar_min precip_max temp_min with
  | none => rw [hr] at hv; exact absurd hv (by simp)
  | some acc =>
    rw [hr] at hv
    simp only at hv
    unfold calculate_good_days at hr
    by_cases hg : hasAnyGrid data = true
    · rw [if_pos hg] at hr
      obtain ⟨u, hu, h1, h2⟩ :=
        runMonths_app_combined_growth he months ⟨gzeros, gzeros, gzeros⟩ acc hr
          cell v hv
      have hu0 : u = 0 := by
        have : some (0 : ℝ) = some u := hu
        injection this with h3
        exact h3.symm
      constructor <;> (rw [hu0] at h1 h2; linarith)
    · rw [if_neg hg] at hr; exact absurd hr (by simp)

/-- Witness for `c1_combined_good_days_bounded`: one October month over a
one-cell grid (soltrans 0.5, ppt 0, tmean 0), `erf` the constant-zero
function; the combined cell value is 7.3625. -/
theorem c1_combined_good_days_bounded_witness :
    (0 : ℝ) ≤ 7.3625 ∧ (7.3625 : ℝ) ≤ daysSum [(10, 31)] := by
  refine @c1_combined_good_days_bounded Unit (fun _ => 0)
    (fun y => by norm_num) [(10, 31)] oneCellData 0.5 1 0 (by norm_num)
    (by norm_num) (by norm_num) () 7.3625 ?_
  have key : appCombined
      (calculate_good_days (fun _ => (0 : ℝ)) [(10, 31)] oneCellData 0.5 1 0) () =
      some ((0 : ℝ) +
        frac_good_solar (fun _ => (0 : ℝ)) 0.5 0.5 * app_frac_dry 1 ((31 : ℕ) : ℝ) 0 *
          frac_warm_enough (fun _ => (0 : ℝ)) 0 0 * ((31 : ℕ) : ℝ)) := rfl
  rw [key]
  norm_num [frac_good_solar, app_frac_dry, frac_warm_enough, norm_cdf, clipR,
    min_def, max_def]

/-- C2: the normal CDF is `0.5 * (1 + erf(z / sqrt 2))`; the per-month solar
contribution of a cell with non-missing soltrans mean `s0` is
`(1 - norm_cdf((solar_min - s0) / 0.12)) * days_in_month` added to the solar
accumulator; and for the concrete scenario (31 days, soltrans 0.5,
solar_min 0.40, std 0.12) the solar-only good-days value lies within 0.1 of
24.7, given the tabulated value of `erf` at the evaluation point. -/
theorem c2_solar_probability_model (erf : ℝ → ℝ)
    (hpt : -0.596 ≤ erf ((0.40 - 0.5) / 0.12 / Real.sqrt 2) ∧
      erf ((0.40 - 0.5) / 0.12 / Real.sqrt 2) ≤ -0.595) :
    (∀ z : ℝ, norm_cdf erf z = 0.5 * (1 + erf (z / Real.sqrt 2)))
    ∧ (∀ (ι : Type) (solar_min precip_max temp_min : ℝ)
        (soltrans ppt tmean : GeoGrid ι) (d : ℝ) (acc : AppAcc ι) (cell : ι)
        (s0 s1 : ℝ), soltrans cell = some s0 → acc.solar cell = some s1 →
        (appCompute erf solar_min precip_max temp_min soltrans ppt tmean d
          acc).solar cell =
          some (s1 + (1 - norm_cdf erf ((solar_min - s0) / 0.12)) * d))
    ∧ (∀ v : ℝ,
        appSolar (calculate_good_days erf [(10, 31)] oneCellData 0.40 2.5 (-5))
          () = some v →
        24.6 < v ∧ v < 24.8) := by
  refine ⟨fun z => rfl, ?_, ?_⟩
  · intro ι solar_min precip_max temp_min soltrans ppt tmean d acc cell s0 s1
      hs0 hs1
    show NanReal.o2 (fun x y => x + y) (acc.solar cell)
      (NanReal.o1 (fun x => x * d)
        (NanReal.o1 (frac_good_solar erf solar_min) (soltrans cell))) = _
    rw [hs0, hs1]
    rfl
  · intro v hv
    have key : appSolar
        (calculate_good_days erf [(10, 31)] oneCellData 0.40 2.5 (-5)) () =
        some ((0 : ℝ) + frac_good_solar erf 0.40 0.5 * ((31 : ℕ) : ℝ)) := rfl
    rw [key] at hv
    injection hv with hv2
    rw [← hv2]
    unfold frac_good_solar norm_cdf
    obtain ⟨h1, h2⟩ := hpt
    constructor <;> nlinarith

/-- Witness for `c2_solar_probability_model` with `erf` the constant function
returning the tabulated value -0.5954. -/
theorem c2_solar_probability_model_witness :
    24.6 < (0 : ℝ) + frac_good_solar (fun _ => (-0.5954 : ℝ)) 0.40 0.5 * ((31 : ℕ) : ℝ)
    ∧ (0 : ℝ) + frac_good_solar (fun _ => (-0.5954 : ℝ)) 0.40 0.5 * ((31 : ℕ) : ℝ) < 24.8 := by
  exact (c2_solar_probability_model (fun _ => (-0.5954 : ℝ))
    ⟨by norm_num, by norm_num⟩).2.2 _ rfl

/-- C3 counterexample: in the `sundex_v2.py` variant the dry fraction at
precip_max = 30, days = 30, monthly total = 450 mm equals 0.15, but the
spec formula `clip(0.95 - daily / (precipMax * k), floor, 0.95)` differs from
it for every claimed preset `k ∈ {6, 8, 15}`, `floor ∈ {0.10, 0.15, 0.05}` —
the code's divisor is the constant 15, not `precipMax * 15`. -/
theorem c3_dry_fraction_counterexample :
    v2_frac_dry 30 450 = 0.15
    ∧ claimDryFrac 6 0.10 30 30 450 ≠ 0.15
    ∧ claimDryFrac 6 0.15 30 30 450 ≠ 0.15
    ∧ claimDryFrac 6 0.05 30 30 450 ≠ 0.15
    ∧ claimDryFrac 8 0.10 30 30 450 ≠ 0.15
    ∧ claimDryFrac 8 0.15 30 30 450 ≠ 0.15
    ∧ claimDryFrac 8 0.05 30 30 450 ≠ 0.15
    ∧ claimDryFrac 15 0.10 30 30 450 ≠ 0.15
    ∧ claimDryFrac 15 0.15 30 30 450 ≠ 0.15
    ∧ claimDryFrac 15 0.05 30 30 450 ≠ 0.15 := by
  refine ⟨?_, ?_, ?_, ?_, ?_, ?_, ?_, ?_, ?_, ?_⟩ <;>
    norm_num [v2_frac_dry, claimDryFrac, clipR, min_def, max_def]

/-- C3 (amended): the `app.py` dry fraction is exactly the spec formula with
(k, floor) = (6, 0.10); the `build_webapp_v2.py` JS dry fraction is exactly
the spec formula with (k, floor) = (8, 0.05); the `sundex_v2.py` month step is
entirely independent of the `precip_max` threshold (its divisor is the
constant 15, floor 0.15); and the `app.py` fraction genuinely depends on
`precip_max`. -/
theorem c3_dry_fraction_variants :
    (∀ precip_max d p : ℝ,
      app_frac_dry precip_max d p = claimDryFrac 6 0.10 precip_max d p)
    ∧ (∀ precip_max d p : ℝ,
      webapp2_frac_dry precip_max d p = claimDryFrac 8 0.05 precip_max d p)
    ∧ (∀ (ι : Type) (erf : ℝ → ℝ) (data : MonthlyData ι) (t1 t2 : Thresholds)
        (acc : V2Acc ι) (md : ℕ × ℕ), t1.solar_min = t2.solar_min →
        t1.temp_min = t2.temp_min →
        v2MonthStep erf data t1 acc md = v2MonthStep erf data t2 acc md)
    ∧ app_frac_dry 1 30 30 ≠ app_frac_dry 2 30 30 := by
  refine ⟨fun precip_max d p => rfl, fun precip_max d p => ?_, ?_, ?_⟩
  · unfold webapp2_frac_dry claimDryFrac clipR
    rw [max_min_distrib_left,
      show max (0.05 : ℝ) 0.95 = 0.95 from by norm_num [max_def],
      max_comm, min_comm]
  · intro ι erf data t1 t2 acc md h1 h2
    obtain ⟨s1, p1, m1, x1⟩ := t1
    obtain ⟨s2, p2, m2, x2⟩ := t2
    simp only at h1 h2
    subst h1
    subst h2
    rfl
  · norm_num [app_frac_dry, clipR, min_def, max_def]

/-- Witness for `c3_dry_fraction_variants` at concrete inputs: two threshold
records that differ only in `precip_max` (and the irrelevant `temp_max`)
produce the same month step on concrete data. -/
theorem c3_dry_fraction_variants_witness :
    v2MonthStep (fun _ => (0 : ℝ)) oneCellData ⟨0.40, 2.5, -5, 20⟩
        ⟨gzeros, gzeros, gzeros, gzeros⟩ (10, 31) =
      v2MonthStep (fun _ => (0 : ℝ)) oneCellData ⟨0.40, 99, -5, 0⟩
        ⟨gzeros, gzeros, gzeros, gzeros⟩ (10, 31)
    ∧ app_frac_dry 1 30 30 = claimDryFrac 6 0.10 1 30 30 := by
  exact ⟨c3_dry_fraction_variants.2.2.1 Unit (fun _ => 0) oneCellData
    ⟨0.40, 2.5, -5, 20⟩ ⟨0.40, 99, -5, 0⟩ ⟨gzeros, gzeros, gzeros, gzeros⟩
    (10, 31) rfl rfl, c3_dry_fraction_variants.1 1 30 30⟩

/-! ### Missing-data behaviour of the month loop -/

theorem o1_none {f : ℝ → ℝ} : NanReal.o1 f none = none := rfl

/-- A month whose grid is absent for one of the three variables is skipped:
the accumulators are returned unchanged. -/
theorem v2MonthStep_skip {ι : Type} {erf : ℝ → ℝ} {data : MonthlyData ι}
    {thr : Thresholds} {solM pptM tmM : VarData ι} {md : ℕ × ℕ}
    (hsol : alookup data Var.soltrans = some solM)
    (hppt : alookup data Var.ppt = some pptM)
    (htm : alookup data Var.tmean = some tmM)
    (hmiss : alookup solM md.1 = none ∨ alookup pptM md.1 = none ∨
      alookup tmM md.1 = none)
    (acc : V2Acc ι) :
    v2MonthStep erf data thr acc md = some acc := by
  unfold v2MonthStep
  simp only [hsol, hppt, htm]
  rcases hmiss with h | h | h
  · simp only [h]
  · cases e1 : alookup solM md.1 <;> simp only [e1, h]
  · cases e1 : alookup solM md.1 <;> cases e2 : alookup pptM md.1 <;>
      simp only [e1, e2, h]

/-- NaN propagation through one month computation: a missing combined
accumulator cell, or a missing input cell, yields a missing combined cell. -/
theorem v2Compute_combined_none {ι : Type} {erf : ℝ → ℝ} {thr : Thresholds}
    {soltrans ppt tmean : GeoGrid ι} {d : ℝ} {acc : V2Acc ι} {cell : ι}
    (h : acc.combined cell = none ∨ soltrans cell = none ∨ ppt cell = none ∨
      tmean cell = none) :
    (v2Compute erf thr soltrans ppt tmean d acc).combined cell = none := by
  simp only [v2Compute, gadd, gscale, gmul, gmap]
  rcases h with h | h | h | h <;>
    simp [h, o1_none, o2_none_left, o2_none_right]

theorem v2MonthStep_none_preserved {ι : Type} {erf : ℝ → ℝ}
    {data : MonthlyData ι} {thr : Thresholds} {acc acc2 : V2Acc ι} {md : ℕ × ℕ}
    (h : v2MonthStep erf data thr acc md = some acc2) (cell : ι)
    (hnone : acc.combined cell = none) : acc2.combined cell = none := by
  unfold v2MonthStep at h
  split at h
  · split at h
    · injection h with h2
      subst h2
      exact v2Compute_combined_none (Or.inl hnone)
    · injection h with h2
      subst h2
      exact hnone
  · exact absurd h (by simp)

theorem v2MonthStep_missing_none {ι : Type} {erf : ℝ → ℝ}
    {data : MonthlyData ι} {thr : Thresholds} {acc acc2 : V2Acc ι} {md : ℕ × ℕ}
    (h : v2MonthStep erf data thr acc md = some acc2) {cell : ι}
    (hmiss : v2MissingAt data md cell) : acc2.combined cell = none := by
  obtain ⟨solM, pptM, tmM, sol, ppt, tm, h1, h2, h3, h4, h5, h6, hor⟩ := hmiss
  unfold v2MonthStep at h
  simp only [h1, h2, h3, h4, h5, h6] at h
  injection h with h7
  subst h7
  exact v2Compute_combined_none (by tauto)

theorem runMonths_v2_combined_none {ι : Type} {erf : ℝ → ℝ}
    {data : MonthlyData ι} {thr : Thresholds} :
    ∀ (months : List (ℕ × ℕ)) (a out : V2Acc ι),
      runMonths (v2MonthStep erf data thr) a months = some out →
      ∀ cell : ι,
        ((∃ md ∈ months, v2MissingAt data md cell) ∨ a.combined cell = none) →
        out.combined cell = none := by
  intro months
  induction months with
  | nil =>
    intro a out h cell hp
    rw [runMonths_nil] at h
    injection h with h2
    subst h2
    rcases hp with ⟨md, hmem, _⟩ | hn
    · exact absurd hmem (by simp)
    · exact hn
  | cons md rest ih =>
    intro a out h cell hp
    rw [runMonths_cons] at h
    cases hstep : v2MonthStep erf data thr a md with
    | none => rw [hstep] at h; exact absurd h (by simp)
    | some a1 =>
      rw [hstep] at h
      rcases hp with ⟨md0, hmem, hmiss⟩ | hn
      · rcases List.mem_cons.mp hmem with heq | hmem2
        · subst heq
          exact ih a1 out h cell
            (Or.inr (v2MonthStep_missing_none hstep hmiss))
        · exact ih a1 out h cell (Or.inl ⟨md0, hmem2, hmiss⟩)
      · exact ih a1 out h cell
          (Or.inr (v2MonthStep_none_preserved hstep cell hn))

/-- C4 counterexample: October has all three variable grids, but the soltrans
grid is missing (NaN) at the cell.  The estimator does not skip this
cell/month: the run succeeds and the cell's combined output is NaN, not the
0 the claim's "contributes nothing" semantics would give. -/
theorem c4_cell_nan_counterexample :
    (estimate_good_days_from_monthly (fun _ => (0 : ℝ)) [(10, 31)]
        solMissingData DEFAULT_THRESHOLDS).isSome = true
    ∧ v2Combined (estimate_good_days_from_monthly (fun _ => (0 : ℝ)) [(10, 31)]
        solMissingData DEFAULT_THRESHOLDS) () = none
    ∧ v2Combined (estimate_good_days_from_monthly (fun _ => (0 : ℝ)) [(10, 31)]
        solMissingData DEFAULT_THRESHOLDS) () ≠ some 0 := by
  have h2 : v2Combined (estimate_good_days_from_monthly (fun _ => (0 : ℝ))
      [(10, 31)] solMissingData DEFAULT_THRESHOLDS) () = none := rfl
  exact ⟨rfl, h2, by rw [h2]; exact fun hx => Option.noConfusion hx⟩

/-- C4 (amended): a month whose variable GRID is absent is skipped and
contributes nothing to any accumulator; but a cell-level missing value inside
an evaluated month propagates NaN into the combined output at that cell
(the cell ends missing, not zero). -/
theorem c4_missing_input_handling (erf : ℝ → ℝ) :
    (∀ (ι : Type) (data : MonthlyData ι) (thr : Thresholds) (acc : V2Acc ι)
        (md : ℕ × ℕ) (solM pptM tmM : VarData ι),
      alookup data Var.soltrans = some solM →
      alookup data Var.ppt = some pptM →
      alookup data Var.tmean = some tmM →
      (alookup solM md.1 = none ∨ alookup pptM md.1 = none ∨
        alookup tmM md.1 = none) →
      v2MonthStep erf data thr acc md = some acc)
    ∧ (∀ (ι : Type) (months : List (ℕ × ℕ)) (data : MonthlyData ι)
        (thr : Thresholds) (cell : ι),
      (∃ md ∈ months, v2MissingAt data md cell) →
      v2Combined (estimate_good_days_from_monthly erf months data thr) cell =
        none) := by
  constructor
  · intro ι data thr acc md solM pptM tmM hsol hppt htm hmiss
    exact v2MonthStep_skip hsol hppt htm hmiss acc
  · intro ι months data thr cell hmiss
    unfold v2Combined
    cases hr : estimate_good_days_from_monthly erf months data thr with
    | none => rfl
    | some res =>
      simp only
      unfold estimate_good_days_from_monthly at hr
      by_cases hg : hasAnyGrid data = true
      · rw [if_pos hg] at hr
        rw [Option.map_eq_some'] at hr
        obtain ⟨acc, hacc, hres⟩ := hr
        have := runMonths_v2_combined_none months ⟨gzeros, gzeros, gzeros, gzeros⟩
          acc hacc cell (Or.inl hmiss)
        rw [← hres]
        exact this
      · rw [if_neg hg] at hr; exact absurd hr (by simp)

/-- Witness for `c4_missing_input_handling`: a month-level skip on data with
no October soltrans grid, and NaN propagation at the concrete one-cell grid. -/
theorem c4_missing_input_handling_witness :
    v2MonthStep (fun _ => (0 : ℝ)) emptyMonthlyData DEFAULT_THRESHOLDS
        ⟨gzeros, gzeros, gzeros, gzeros⟩ (10, 31) =
      some ⟨gzeros, gzeros, gzeros, gzeros⟩
    ∧ v2Combined (estimate_good_days_from_monthly (fun _ => (0 : ℝ))
        [(10, 31)] solMissingData DEFAULT_THRESHOLDS) () = none := by
  constructor
  · exact (c4_missing_input_handling (fun _ => 0)).1 Unit emptyMonthlyData
      DEFAULT_THRESHOLDS ⟨gzeros, gzeros, gzeros, gzeros⟩ (10, 31) [] [] []
      rfl rfl rfl (Or.inl rfl)
  · exact (c4_missing_input_handling (fun _ => 0)).2 Unit [(10, 31)]
      solMissingData DEFAULT_THRESHOLDS ()
      ⟨(10, 31), by simp,
        ⟨[(10, fun _ => none)], [(10, fun _ => some 0)],
          [(10, fun _ => some 0)], fun _ => none, fun _ => some 0,
          fun _ => some 0, rfl, rfl, rfl, rfl, rfl, rfl, Or.inl rfl⟩⟩

/-! ### Totality of the estimator when data is present -/

theorem v2MonthStep_total {ι : Type} {erf : ℝ → ℝ} {data : MonthlyData ι}
    {thr : Thresholds} {solM pptM tmM : VarData ι}
    (hsol : alookup data Var.soltrans = some solM)
    (hppt : alookup data Var.ppt = some pptM)
    (htm : alookup data Var.tmean = some tmM)
    (acc : V2Acc ι) (md : ℕ × ℕ) :
    ∃ acc2, v2MonthStep erf data thr acc md = some acc2 := by
  unfold v2MonthStep
  simp only [hsol, hppt, htm]
  cases e1 : alookup solM md.1 <;> cases e2 : alookup pptM md.1 <;>
    cases e3 : alookup tmM md.1 <;> exact ⟨_, rfl⟩

theorem runMonths_v2_total {ι : Type} {erf : ℝ → ℝ} {data : MonthlyData ι}
    {thr : Thresholds} {solM pptM tmM : VarData ι}
    (hsol : alookup data Var.soltrans = some solM)
    (hppt : alookup data Var.ppt = some pptM)
    (htm : alookup data Var.tmean = some tmM) :
    ∀ (months : List (ℕ × ℕ)) (acc : V2Acc ι),
      ∃ out, runMonths (v2MonthStep erf data thr) acc months = some out := by
  intro months
  induction months with
  | nil => intro acc; exact ⟨acc, rfl⟩
  | cons md rest ih =>
    intro acc
    obtain ⟨a1, h1⟩ := @v2MonthStep_total ι erf data thr solM pptM tmM hsol hppt htm acc md
    obtain ⟨out, hout⟩ := ih a1
    refine ⟨out, ?_⟩
    rw [runMonths_cons, h1]
    exact hout

/-- C8 counterexample: with the variable keys present but no grid loaded for
any month, the estimator raises (`np.zeros(None)` raises `TypeError` because
there is no array to take the reference shape from) instead of returning
output grids. -/
theorem c8_estimator_raises_counterexample :
    estimate_good_days_from_monthly (fun _ => (0 : ℝ)) winterMonths
      emptyMonthlyData DEFAULT_THRESHOLDS = none := rfl

/-- C8 (amended): provided at least one grid is loaded (so a reference shape
exists) and the three consumed variable keys are present in the mapping, the
estimator returns a result without raising, for every month set, threshold
record and data availability pattern. -/
theorem c8_graceful_degradation (erf : ℝ → ℝ) {ι : Type}
    (months : List (ℕ × ℕ)) (data : MonthlyData ι) (thr : Thresholds)
    (solM pptM tmM : VarData ι)
    (hsol : alookup data Var.soltrans = some solM)
    (hppt : alookup data Var.ppt = some pptM)
    (htm : alookup data Var.tmean = some tmM)
    (hg : hasAnyGrid data = true) :
    (estimate_good_days_from_monthly erf months data thr).isSome = true := by
  unfold estimate_good_days_from_monthly
  rw [if_pos hg]
  obtain ⟨out, hout⟩ :=
    @runMonths_v2_total ι erf data thr solM pptM tmM hsol hppt htm months
      ⟨gzeros, gzeros, gzeros, gzeros⟩
  rw [hout]
  rfl

/-- Witness for `c8_graceful_degradation` at the concrete one-cell data. -/
theorem c8_graceful_degradation_witness :
    (estimate_good_days_from_monthly (fun _ => (0 : ℝ)) [(10, 31)] oneCellData
      DEFAULT_THRESHOLDS).isSome = true := by
  exact c8_graceful_degradation (fun _ => 0) [(10, 31)] oneCellData
    DEFAULT_THRESHOLDS [(10, fun _ => some 0.5)] [(10, fun _ => some 0)]
    [(10, fun _ => some 0)] rfl rfl rfl rfl

/-! ### Ordering of the combined and per-criterion accumulators -/

theorem prod3_le_each {a b c : ℝ} (ha : 0 ≤ a ∧ a ≤ 1) (hb : 0 ≤ b ∧ b ≤ 1)
    (hc : 0 ≤ c ∧ c ≤ 1) {d : ℝ} (hd : 0 ≤ d) :
    a * b * c * d ≤ a * d ∧ a * b * c * d ≤ b * d ∧ a * b * c * d ≤ c * d := by
  have h1 : a * b * c ≤ a := by
    have := mul_le_mul_of_nonneg_left (mul_le_one hb.2 hc.1 hc.2) ha.1
    nlinarith
  have h2 : a * b * c ≤ b := by
    have := mul_le_mul_of_nonneg_left (mul_le_one ha.2 hc.1 hc.2) hb.1
    nlinarith
  have h3 : a * b * c ≤ c := by
    have := mul_le_mul_of_nonneg_left (mul_le_one ha.2 hb.1 hb.2) hc.1
    nlinarith
  exact ⟨mul_le_mul_of_nonneg_right h1 hd, mul_le_mul_of_nonneg_right h2 hd,
    mul_le_mul_of_nonneg_right h3 hd⟩

/-- Inversion of a non-missing combined cell after one `app.py` month
computation. -/
theorem appCompute_combined_eq_some {ι : Type} {erf : ℝ → ℝ}
    {solar_min precip_max temp_min : ℝ} {soltrans ppt tmean : GeoGrid ι}
    {d : ℝ} {acc : AppAcc ι} {cell : ι} {c : ℝ}
    (h : (appCompute erf solar_min precip_max temp_min soltrans ppt tmean d
      acc).combined cell = some c) :
    ∃ u s p t, acc.combined cell = some u ∧ soltrans cell = some s ∧
      ppt cell = some p ∧ tmean cell = some t ∧
      c = u + frac_good_solar erf solar_min s * app_frac_dry precip_max d p *
        frac_warm_enough erf temp_min t * d := by
  simp only [appCompute, gadd, gscale, gmul, gmap] at h
  rw [o2_eq_some] at h
  obtain ⟨u, w, hu, hw, huw⟩ := h
  rw [o1_eq_some] at hw
  obtain ⟨cc, hcc, hcd⟩ := hw
  rw [o2_eq_some] at hcc
  obtain ⟨ab, fw, hab, hfw, habw⟩ := hcc
  rw [o2_eq_some] at hab
  obtain ⟨fs, fd, hfs, hfd, hfsd⟩ := hab
  rw [o1_eq_some] at hfs hfd hfw
  obtain ⟨s, hs, hfs2⟩ := hfs
  obtain ⟨p, hp, hfd2⟩ := hfd
  obtain ⟨t, ht, hfw2⟩ := hfw
  refine ⟨u, s, p, t, hu, hs, hp, ht, ?_⟩
  rw [← huw, ← hcd, ← habw, ← hfsd, hfs2, hfd2, hfw2]

/-- Inversion of a non-missing combined cell after one `sundex_v2.py` month
computation. -/
theorem v2Compute_combined_eq_some {ι : Type} {erf : ℝ → ℝ} {thr : Thresholds}
    {soltrans ppt tmean : GeoGrid ι} {d : ℝ} {acc : V2Acc ι} {cell : ι} {c : ℝ}
    (h : (v2Compute erf thr soltrans ppt tmean d acc).combined cell = some c) :
    ∃ u s p t, acc.combined cell = some u ∧ soltrans cell = some s ∧
      ppt cell = some p ∧ tmean cell = some t ∧
      c = u + frac_good_solar erf thr.solar_min s * v2_frac_dry d p *
        frac_warm_enough erf thr.temp_min t * d := by
  simp only [v2Compute, gadd, gscale, gmul, gmap] at h
  rw [o2_eq_some] at h
  obtain ⟨u, w, hu, hw, huw⟩ := h
  rw [o1_eq_some] at hw
  obtain ⟨cc, hcc, hcd⟩ := hw
  rw [o2_eq_some] at hcc
  obtain ⟨ab, fw, hab, hfw, habw⟩ := hcc
  rw [o2_eq_some] at hab
  obtain ⟨fs, fd, hfs, hfd, hfsd⟩ := hab
  rw [o1_eq_some] at hfs hfd hfw
  obtain ⟨s, hs, hfs2⟩ := hfs
  obtain ⟨p, hp, hfd2⟩ := hfd
  obtain ⟨t, ht, hfw2⟩ := hfw
  refine ⟨u, s, p, t, hu, hs, hp, ht, ?_⟩
  rw [← huw, ← hcd, ← habw, ← hfsd, hfs2, hfd2, hfw2]

theorem appCompute_le {ι : Type} {erf : ℝ → ℝ}
    (he : ∀ y, -1 ≤ erf y ∧ erf y ≤ 1) {solar_min precip_max temp_min : ℝ}
    {soltrans ppt tmean : GeoGrid ι} {d : ℝ} (hd : 0 ≤ d) {acc : AppAcc ι}
    (ha : AppAccLe acc) :
    AppAccLe (appCompute erf solar_min precip_max temp_min soltrans ppt tmean
      d acc) := by
  intro cell c hc
  obtain ⟨u, s, p, t, hu, hs, hp, ht, hcval⟩ := appCompute_combined_eq_some hc
  obtain ⟨⟨s1, hs1, hus⟩, ⟨d1, hd1, hud⟩⟩ := ha cell u hu
  have bs := frac_good_solar_bounds he solar_min s
  have bd := app_frac_dry_bounds precip_max d p
  have bw := @frac_warm_enough_bounds erf temp_min t
  obtain ⟨l1, l2, _⟩ := prod3_le_each bs bd bw hd
  constructor
  · refine ⟨s1 + frac_good_solar erf solar_min s * d, ?_, ?_⟩
    · show NanReal.o2 (fun x y => x + y) (acc.solar cell)
        (NanReal.o1 (fun x => x * d)
          (NanReal.o1 (frac_good_solar erf solar_min) (soltrans cell))) = _
      rw [hs1, hs]
      rfl
    · rw [hcval]; linarith
  · refine ⟨d1 + app_frac_dry precip_max d p * d, ?_, ?_⟩
    · show NanReal.o2 (fun x y => x + y) (acc.dry cell)
        (NanReal.o1 (fun x => x * d)
          (NanReal.o1 (app_frac_dry precip_max d) (ppt cell))) = _
      rw [hd1, hp]
      rfl
    · rw [hcval]; linarith

theorem v2Compute_le {ι : Type} {erf : ℝ → ℝ}
    (he : ∀ y, -1 ≤ erf y ∧ erf y ≤ 1) {thr : Thresholds}
    {soltrans ppt tmean : GeoGrid ι} {d : ℝ} (hd : 0 ≤ d) {acc : V2Acc ι}
    (ha : V2AccLe acc) :
    V2AccLe (v2Compute erf thr soltrans ppt tmean d acc) := by
  intro cell c hc
  obtain ⟨u, s, p, t, hu, hs, hp, ht, hcval⟩ := v2Compute_combined_eq_some hc
  obtain ⟨⟨s1, hs1, hus⟩, ⟨d1, hd1, hud⟩, ⟨t1, ht1, hut⟩⟩ := ha cell u hu
  have bs := frac_good_solar_bounds he thr.solar_min s
  have bd := v2_frac_dry_bounds d p
  have bw := @frac_warm_enough_bounds erf thr.temp_min t
  obtain ⟨l1, l2, l3⟩ := prod3_le_each bs bd bw hd
  refine ⟨⟨s1 + frac_good_solar erf thr.solar_min s * d, ?_, ?_⟩,
    ⟨d1 + v2_frac_dry d p * d, ?_, ?_⟩,
    ⟨t1 + frac_warm_enough erf thr.temp_min t * d, ?_, ?_⟩⟩
  · show NanReal.o2 (fun x y => x + y) (acc.solar cell)
      (NanReal.o1 (fun x => x * d)
        (NanReal.o1 (frac_good_solar erf thr.solar_min) (soltrans cell))) = _
    rw [hs1, hs]
    rfl
  · rw [hcval]; linarith
  · show NanReal.o2 (fun x y => x + y) (acc.dry cell)
      (NanReal.o1 (fun x => x * d)
        (NanReal.o1 (v2_frac_dry d) (ppt cell))) = _
    rw [hd1, hp]
    rfl
  · rw [hcval]; linarith
  · show NanReal.o2 (fun x y => x + y) (acc.temp cell)
      (NanReal.o1 (fun x => x * d)
        (NanReal.o1 (frac_warm_enough erf thr.temp_min) (tmean cell))) = _
    rw [ht1, ht]
    rfl
  · rw [hcval]; linarith

theorem appMonthStep_le {ι : Type} {erf : ℝ → ℝ}
    (he : ∀ y, -1 ≤ erf y ∧ erf y ≤ 1) {data : MonthlyData ι}
    {solar_min precip_max temp_min : ℝ} {acc acc2 : AppAcc ι} {md : ℕ × ℕ}
    (h : appMonthStep erf data solar_min precip_max temp_min acc md = some acc2)
    (ha : AppAccLe acc) : AppAccLe acc2 := by
  unfold appMonthStep at h
  split at h
  · split at h
    · injection h with h2
      subst h2
      exact appCompute_le he (Nat.cast_nonneg _) ha
    · injection h with h2
      subst h2
      exact ha
  · exact absurd h (by simp)

theorem v2MonthStep_le {ι : Type} {erf : ℝ → ℝ}
    (he : ∀ y, -1 ≤ erf y ∧ erf y ≤ 1) {data : MonthlyData ι}
    {thr : Thresholds} {acc acc2 : V2Acc ι} {md : ℕ × ℕ}
    (h : v2MonthStep erf data thr acc md = some acc2)
    (ha : V2AccLe acc) : V2AccLe acc2 := by
  unfold v2MonthStep at h
  split at h
  · split at h
    · injection h with h2
      subst h2
      exact v2Compute_le he (Nat.cast_nonneg _) ha
    · injection h with h2
      subst h2
      exact ha
  · exact absurd h (by simp)

theorem runMonths_app_le {ι : Type} {erf : ℝ → ℝ}
    (he : ∀ y, -1 ≤ erf y ∧ erf y ≤ 1) {data : MonthlyData ι}
    {solar_min precip_max temp_min : ℝ} :
    ∀ (months : List (ℕ × ℕ)) (a out : AppAcc ι),
      runMonths (appMonthStep erf data solar_min precip_max temp_min) a months =
        some out → AppAccLe a → AppAccLe out := by
  intro months
  induction months with
  | nil =>
    intro a out h ha
    rw [runMonths_nil] at h
    injection h with h2
    subst h2
    exact ha
  | cons md rest ih =>
    intro a out h ha
    rw [runMonths_cons] at h
    cases hstep : appMonthStep erf data solar_min precip_max temp_min a md with
    | none => rw [hstep] at h; exact absurd h (by simp)
    | some a1 =>
      rw [hstep] at h
      exact ih a1 out h (appMonthStep_le he hstep ha)

theorem runMonths_v2_le {ι : Type} {erf : ℝ → ℝ}
    (he : ∀ y, -1 ≤ erf y ∧ erf y ≤ 1) {data : MonthlyData ι}
    {thr : Thresholds} :
    ∀ (months : List (ℕ × ℕ)) (a out : V2Acc ι),
      runMonths (v2MonthStep erf data thr) a months = some out →
      V2AccLe a → V2AccLe out := by
  intro months
  induction months with
  | nil =>
    intro a out h ha
    rw [runMonths_nil] at h
    injection h with h2
    subst h2
    exact ha
  | cons md rest ih =>
    intro a out h ha
    rw [runMonths_cons] at h
    cases hstep : v2MonthStep erf data thr a md with
    | none => rw [hstep] at h; exact absurd h (by simp)
    | some a1 =>
      rw [hstep] at h
      exact ih a1 out h (v2MonthStep_le he hstep ha)

theorem appAccLe_zeros {ι : Type} : AppAccLe (⟨gzeros, gzeros, gzeros⟩ : AppAcc ι) := by
  intro cell c hc
  have h0 : c = 0 := by
    have : some (0 : ℝ) = some c := hc
    injection this with h
    exact h.symm
  subst h0
  exact ⟨⟨0, rfl, le_refl 0⟩, ⟨0, rfl, le_refl 0⟩⟩

theorem v2AccLe_zeros {ι : Type} :
    V2AccLe (⟨gzeros, gzeros, gzeros, gzeros⟩ : V2Acc ι) := by
  intro cell c hc
  have h0 : c = 0 := by
    have : some (0 : ℝ) = some c := hc
    injection this with h
    exact h.symm
  subst h0
  exact ⟨⟨0, rfl, le_refl 0⟩, ⟨0, rfl, le_refl 0⟩, ⟨0, rfl, le_refl 0⟩⟩

/-- C10: wherever the outputs are non-missing, the combined good-days count is
bounded by each per-criterion count — for `app.py` (solar-only and dry-only)
and for `sundex_v2.py` (solar-only, dry-only and temperature-only) — given
that the external `math.erf` stays within `[-1, 1]`. -/
theorem c10_combined_le_per_criterion (erf : ℝ → ℝ)
    (he : ∀ y, -1 ≤ erf y ∧ erf y ≤ 1) :
    (∀ (ι : Type) (months : List (ℕ × ℕ)) (data : MonthlyData ι)
        (solar_min precip_max temp_min : ℝ) (cell : ι) (c : ℝ),
      appCombined (calculate_good_days erf months data solar_min precip_max
        temp_min) cell = some c →
      (∀ s, appSolar (calculate_good_days erf months data solar_min precip_max
        temp_min) cell = some s → c ≤ s) ∧
      (∀ dd, appDry (calculate_good_days erf months data solar_min precip_max
        temp_min) cell = some dd → c ≤ dd))
    ∧ (∀ (ι : Type) (months : List (ℕ × ℕ)) (data : MonthlyData ι)
        (thr : Thresholds) (cell : ι) (c : ℝ),
      v2Combined (estimate_good_days_from_monthly erf months data thr) cell =
        some c →
      (∀ s, v2Solar (estimate_good_days_from_monthly erf months data thr) cell =
        some s → c ≤ s) ∧
      (∀ dd, v2Dry (estimate_good_days_from_monthly erf months data thr) cell =
        some dd → c ≤ dd) ∧
      (∀ t, v2Temp (estimate_good_days_from_monthly erf months data thr) cell =
        some t → c ≤ t)) := by
  constructor
  · intro ι months data solar_min precip_max temp_min cell c hc
    unfold appCombined at hc
    unfold appSolar appDry
    cases hr : calculate_good_days erf months data solar_min precip_max temp_min with
    | none => rw [hr] at hc; exact absurd hc (by simp)
    | some acc =>
      rw [hr] at hc
      simp only at hc
      simp only [hr]
      unfold calculate_good_days at hr
      by_cases hg : hasAnyGrid data = true
      · rw [if_pos hg] at hr
        have hle := runMonths_app_le he months ⟨gzeros, gzeros, gzeros⟩ acc hr
          appAccLe_zeros
        obtain ⟨⟨s0, hs0, hcs⟩, ⟨d0, hd0, hcd⟩⟩ := hle cell c hc
        constructor
        · intro s hsome
          rw [hs0] at hsome
          injection hsome with h2
          rw [← h2]
          exact hcs
        · intro dd hsome
          rw [hd0] at hsome
          injection hsome with h2
          rw [← h2]
          exact hcd
      · rw [if_neg hg] at hr; exact absurd hr (by simp)
  · intro ι months data thr cell c hc
    unfold v2Combined at hc
    unfold v2Solar v2Dry v2Temp
    cases hr : estimate_good_days_from_monthly erf months data thr with
    | none => rw [hr] at hc; exact absurd hc (by simp)
    | some res =>
      rw [hr] at hc
      simp only at hc
      simp only [hr]
      unfold estimate_good_days_from_monthly at hr
      by_cases hg : hasAnyGrid data = true
      · rw [if_pos hg] at hr
        rw [Option.map_eq_some'] at hr
        obtain ⟨acc, hacc, hres⟩ := hr
        have hle := runMonths_v2_le he months ⟨gzeros, gzeros, gzeros, gzeros⟩
          acc hacc v2AccLe_zeros
        have hcomb : acc.combined cell = some c := by rw [← hres] at hc; exact hc
        obtain ⟨⟨s0, hs0, hcs⟩, ⟨d0, hd0, hcd⟩, ⟨t0, ht0, hct⟩⟩ :=
          hle cell c hcomb
        refine ⟨?_, ?_, ?_⟩
        · intro s hsome
          rw [← hres] at hsome
          simp only at hsome
          rw [hs0] at hsome
          injection hsome with h2
          rw [← h2]
          exact hcs
        · intro dd hsome
          rw [← hres] at hsome
          simp only at hsome
          rw [hd0] at hsome
          injection hsome with h2
          rw [← h2]
          exact hcd
        · intro t hsome
          rw [← hres] at hsome
          simp only at hsome
          rw [ht0] at hsome
          injection hsome with h2
          rw [← h2]
          exact hct
      · rw [if_neg hg] at hr; exact absurd hr (by simp)

/-- Witness for `c10_combined_le_per_criterion` at the concrete one-cell data:
combined 7.3625 days, solar-only 15.5 days, dry-only 29.45 days. -/
theorem c10_combined_le_per_criterion_witness :
    (589 / 80 : ℝ) ≤ 31 / 2 ∧ (589 / 80 : ℝ) ≤ 589 / 20 := by
  have hcomb : appCombined
      (calculate_good_days (fun _ => (0 : ℝ)) [(10, 31)] oneCellData 0.5 1 0) () =
      some (589 / 80 : ℝ) := by
    have key : appCombined
        (calculate_good_days (fun _ => (0 : ℝ)) [(10, 31)] oneCellData 0.5 1 0) () =
        some ((0 : ℝ) +
          frac_good_solar (fun _ => (0 : ℝ)) 0.5 0.5 * app_frac_dry 1 ((31 : ℕ) : ℝ) 0 *
            frac_warm_enough (fun _ => (0 : ℝ)) 0 0 * ((31 : ℕ) : ℝ)) := rfl
    rw [key]
    norm_num [frac_good_solar, app_frac_dry, frac_warm_enough, norm_cdf, clipR,
      min_def, max_def]
  have hsolar : appSolar
      (calculate_good_days (fun _ => (0 : ℝ)) [(10, 31)] oneCellData 0.5 1 0) () =
      some (31 / 2 : ℝ) := by
    have key : appSolar
        (calculate_good_days (fun _ => (0 : ℝ)) [(10, 31)] oneCellData 0.5 1 0) () =
        some ((0 : ℝ) + frac_good_solar (fun _ => (0 : ℝ)) 0.5 0.5 * ((31 : ℕ) : ℝ)) := rfl
    rw [key]
    norm_num [frac_good_solar, norm_cdf]
  have hdry : appDry
      (calculate_good_days (fun _ => (0 : ℝ)) [(10, 31)] oneCellData 0.5 1 0) () =
      some (589 / 20 : ℝ) := by
    have key : appDry
        (calculate_good_days (fun _ => (0 : ℝ)) [(10, 31)] oneCellData 0.5 1 0) () =
        some ((0 : ℝ) + app_frac_dry 1 ((31 : ℕ) : ℝ) 0 * ((31 : ℕ) : ℝ)) := rfl
    rw [key]
    norm_num [app_frac_dry, clipR, min_def, max_def]
  have h := (c10_combined_le_per_criterion (fun _ => 0)
    (fun y => by norm_num)).1 Unit [(10, 31)] oneCellData 0.5 1 0 () (589 / 80)
    hcomb
  exact ⟨h.1 (31 / 2) hsolar, h.2 (589 / 20) hdry⟩

/-! ### Reference shape and transform of a pipeline run -/

theorem load_raster_wa_shape {τ : Type} (f : RFile τ) (ts : ℕ × ℕ) :
    ((load_raster_wa f (some ts)).1.rows, (load_raster_wa f (some ts)).1.cols) =
      ts := by
  unfold load_raster_wa
  by_cases h : ((maskGrid f).rows, (maskGrid f).cols) = ts
  · simp only [if_pos h]
    exact h
  · simp only [if_neg h]
    rfl

theorem load_monthly_data_foldl {τ : Type} :
    ∀ (es : List (Var × ℕ × RFile τ)) (st : LoadState τ) (t0 : τ) (s0 : ℕ × ℕ),
      st.transform = some t0 → st.target_shape = some s0 →
      (∀ g ∈ st.result, (g.2.2.rows, g.2.2.cols) = s0) →
      (es.foldl loadStep st).transform = some t0 ∧
      (es.foldl loadStep st).target_shape = some s0 ∧
      ∀ g ∈ (es.foldl loadStep st).result, (g.2.2.rows, g.2.2.cols) = s0 := by
  intro es
  induction es with
  | nil => intro st t0 s0 ht hs hres; exact ⟨ht, hs, hres⟩
  | cons e rest ih =>
    intro st t0 s0 ht hs hres
    rw [List.foldl_cons]
    refine ih (loadStep st e) t0 s0 ?_ ?_ ?_
    · show (match st.transform with
        | none => some (load_raster_wa e.2.2 st.target_shape).2
        | some t1 => some t1) = some t0
      rw [ht]
    · show (match st.target_shape with
        | none => some ((load_raster_wa e.2.2 st.target_shape).1.rows,
            (load_raster_wa e.2.2 st.target_shape).1.cols)
        | some s1 => some s1) = some s0
      rw [hs]
    · intro g hg
      have hg2 : g ∈ st.result ++
          [(e.1, e.2.1, (load_raster_wa e.2.2 st.target_shape).1)] := hg
      rcases List.mem_append.mp hg2 with hold | hnew
      · exact hres g hold
      · have : g = (e.1, e.2.1, (load_raster_wa e.2.2 st.target_shape).1) := by
          simpa using hnew
        rw [this]
        simp only
        rw [hs]
        exact load_raster_wa_shape e.2.2 s0

theorem loadVarArrays_foldl_transform {τ : Type} :
    ∀ (files : List (RFile τ)) (acc : List SGrid × Option τ),
      (files.foldl loadOneFile acc).2 =
        match acc.2 with
        | some t => some t
        | none => files.head?.map RFile.transform := by
  intro files
  induction files with
  | nil =>
    intro acc
    obtain ⟨l, tr⟩ := acc
    cases tr <;> rfl
  | cons f fs ih =>
    intro acc
    rw [List.foldl_cons, ih]
    obtain ⟨l, tr⟩ := acc
    cases tr <;> rfl

theorem load_and_average_foldl_transform {τ : Type} :
    ∀ (varFiles : List (Var × List (RFile τ)))
      (acc : List (Var × SGrid) × Option τ),
      (varFiles.foldl avStep acc).2 =
        match acc.2 with
        | some t => some t
        | none => firstTransform varFiles := by
  intro varFiles
  induction varFiles with
  | nil =>
    intro acc
    obtain ⟨l, tr⟩ := acc
    cases tr <;> rfl
  | cons vf rest ih =>
    intro acc
    rw [List.foldl_cons, ih]
    obtain ⟨l, tr⟩ := acc
    have hv : (avStep (l, tr) vf).2 = (vf.2.foldl loadOneFile ([], tr)).2 := rfl
    rw [hv, loadVarArrays_foldl_transform vf.2 ([], tr)]
    cases tr with
    | some t => rfl
    | none =>
      cases hvf : vf.2 with
      | nil => simp [firstTransform, catLists, hvf]
      | cons f fs => simp [firstTransform, catLists, hvf]

/-- C5 counterexample: in `load_and_average_data`, two variables whose files
have different window shapes (2x2 and 3x3) produce output grids of DIFFERENT
shapes in one run — the second variable's grid is never conformed to the shape
established by the first loaded raster (only the transform comes from the
first load). -/
theorem c5_shared_shape_counterexample :
    ((load_and_average_data twoResFiles).1.map
        (fun pr => (pr.1, pr.2.rows, pr.2.cols))) =
      [(Var.ppt, 2, 2), (Var.soltrans, 3, 3)]
    ∧ (load_and_average_data twoResFiles).2 = some 7
    ∧ (2 : ℕ) ≠ 3 := by
  refine ⟨rfl, rfl, by norm_num⟩

/-- C5 (amended): in `load_monthly_data` the first loaded raster establishes
both the reference transform and the reference shape, and every grid in the
run's result has exactly that shape; in `load_and_average_data` the transform
is likewise taken from the first file loaded in the whole run (never
re-derived later), but grids are only conformed per variable, to that
variable's first array. -/
theorem c5_reference_grid :
    (∀ (τ : Type) (e : Var × ℕ × RFile τ) (es : List (Var × ℕ × RFile τ)),
      (load_monthly_data (e :: es)).transform = some e.2.2.transform
      ∧ (load_monthly_data (e :: es)).target_shape =
          some (e.2.2.rows, e.2.2.cols)
      ∧ ∀ g ∈ (load_monthly_data (e :: es)).result,
          (g.2.2.rows, g.2.2.cols) = (e.2.2.rows, e.2.2.cols))
    ∧ (∀ (τ : Type) (varFiles : List (Var × List (RFile τ))),
      (load_and_average_data varFiles).2 = firstTransform varFiles) := by
  constructor
  · intro τ e es
    have h0 : load_monthly_data (e :: es) =
        es.foldl loadStep (loadStep ⟨[], none, none⟩ e) := rfl
    have ht : (loadStep (⟨[], none, none⟩ : LoadState τ) e).transform =
        some e.2.2.transform := rfl
    have hs : (loadStep (⟨[], none, none⟩ : LoadState τ) e).target_shape =
        some (e.2.2.rows, e.2.2.cols) := rfl
    have hres : ∀ g ∈ (loadStep (⟨[], none, none⟩ : LoadState τ) e).result,
        (g.2.2.rows, g.2.2.cols) = (e.2.2.rows, e.2.2.cols) := by
      intro g hg
      have hg2 : g ∈ [(e.1, e.2.1, maskGrid e.2.2)] := hg
      have h3 : g = (e.1, e.2.1, maskGrid e.2.2) := by simpa using hg2
      rw [h3]
      rfl
    rw [h0]
    exact load_monthly_data_foldl es (loadStep ⟨[], none, none⟩ e)
      e.2.2.transform (e.2.2.rows, e.2.2.cols) ht hs hres
  · intro τ varFiles
    exact load_and_average_foldl_transform varFiles ([], none)

/-- Witness for `c5_reference_grid` at a concrete two-entry load list. -/
theorem c5_reference_grid_witness :
    (load_monthly_data [(Var.ppt, 10, fileSmall), (Var.soltrans, 11, fileLarge)]).transform =
      some 7
    ∧ (load_monthly_data [(Var.ppt, 10, fileSmall),
        (Var.soltrans, 11, fileLarge)]).target_shape = some (2, 2)
    ∧ (load_and_average_data twoResFiles).2 = firstTransform twoResFiles := by
  have h := (c5_reference_grid.1 ℕ (Var.ppt, 10, fileSmall)
    [(Var.soltrans, 11, fileLarge)])
  exact ⟨h.1, h.2.1, c5_reference_grid.2 ℕ twoResFiles⟩

/-! ### Block downsampler -/

theorem filterMap_id_length (l : List (Option ℝ)) :
    (l.filterMap id).length =
      (l.map (fun o => if o.isSome then (1 : ℕ) else 0)).sum := by
  induction l with
  | nil => rfl
  | cons o rest ih =>
    cases o <;> simp [List.filterMap_cons, ih] <;> omega

theorem filterMap_id_sum (l : List (Option ℝ)) :
    (l.filterMap id).sum = (l.map (fun o => o.getD 0)).sum := by
  induction l with
  | nil => rfl
  | cons o rest ih => cases o <;> simp [List.filterMap_cons, ih]

theorem catLists_map_sum {α M : Type _} [AddCommMonoid M] (f : α → M) :
    ∀ ls : List (List α),
      ((catLists ls).map f).sum = (ls.map (fun l => (l.map f).sum)).sum := by
  intro ls
  induction ls with
  | nil => rfl
  | cons l rest ih =>
    show ((l ++ catLists rest).map f).sum = _
    rw [List.map_append, List.sum_append, ih]
    rfl

theorem range_map_sum {M : Type _} [AddCommMonoid M] (f : ℕ → M) :
    ∀ n : ℕ, ((List.range n).map f).sum = ∑ i ∈ Finset.range n, f i := by
  intro n
  induction n with
  | zero => rfl
  | succ n ih =>
    rw [List.range_succ, List.map_append, List.sum_append,
      Finset.sum_range_succ, ih]
    simp

theorem blockCells_valid_length (g : SGrid) (factor i j : ℕ) :
    ((blockCells g factor i j).filterMap id).length =
      ∑ di ∈ Finset.range factor, ∑ dj ∈ Finset.range factor,
        (if (g.cell (i * factor + di) (j * factor + dj)).isSome then (1 : ℕ)
         else 0) := by
  unfold blockCells
  rw [filterMap_id_length, catLists_map_sum, List.map_map, ← range_map_sum]
  congr 1
  apply List.map_congr_left
  intro di _
  show (((List.range factor).map
    (fun dj => g.cell (i * factor + di) (j * factor + dj))).map
      (fun o => if o.isSome then (1 : ℕ) else 0)).sum = _
  rw [List.map_map, range_map_sum]
  rfl

theorem blockCells_valid_sum (g : SGrid) (factor i j : ℕ) :
    ((blockCells g factor i j).filterMap id).sum =
      ∑ di ∈ Finset.range factor, ∑ dj ∈ Finset.range factor,
        (g.cell (i * factor + di) (j * factor + dj)).getD 0 := by
  unfold blockCells
  rw [filterMap_id_sum, catLists_map_sum, List.map_map, ← range_map_sum]
  congr 1
  apply List.map_congr_left
  intro di _
  show (((List.range factor).map
    (fun dj => g.cell (i * factor + di) (j * factor + dj))).map
      (fun o => o.getD 0)).sum = _
  rw [List.map_map, range_map_sum]
  rfl

/-- C9: `downsample` has output dimensions `floor(rows/factor) x
floor(cols/factor)`; each output cell is the arithmetic mean of the valid
samples of its `factor x factor` source block (sum over the block divided by
the number of non-missing samples), and a block with zero valid samples maps
to missing.  Together with the dimension equations this shows trailing
rows/columns that do not fill a complete block never contribute. -/
theorem c9_downsample_contract (g : SGrid) (factor : ℕ) (hf : 1 ≤ factor) :
    (downsample g factor).rows = g.rows / factor
    ∧ (downsample g factor).cols = g.cols / factor
    ∧ ∀ i j : ℕ,
      (downsample g factor).cell i j =
        (if (∑ di ∈ Finset.range factor, ∑ dj ∈ Finset.range factor,
            (if (g.cell (i * factor + di) (j * factor + dj)).isSome then (1 : ℕ)
             else 0)) = 0
         then none
         else some ((∑ di ∈ Finset.range factor, ∑ dj ∈ Finset.range factor,
            (g.cell (i * factor + di) (j * factor + dj)).getD 0) /
          ((∑ di ∈ Finset.range factor, ∑ dj ∈ Finset.range factor,
            (if (g.cell (i * factor + di) (j * factor + dj)).isSome then (1 : ℕ)
             else 0) : ℕ) : ℝ))) := by
  refine ⟨rfl, rfl, ?_⟩
  intro i j
  show (if ((blockCells g factor i j).filterMap id).isEmpty then none
      else some (((blockCells g factor i j).filterMap id).sum /
        (((blockCells g factor i j).filterMap id).length : ℝ))) = _
  have hcond : ((blockCells g factor i j).filterMap id).isEmpty = true ↔
      (∑ di ∈ Finset.range factor, ∑ dj ∈ Finset.range factor,
        (if (g.cell (i * factor + di) (j * factor + dj)).isSome then (1 : ℕ)
         else 0)) = 0 := by
    rw [← blockCells_valid_length, List.isEmpty_iff, List.length_eq_zero]
  by_cases hc : ((blockCells g factor i j).filterMap id).isEmpty = true
  · rw [if_pos hc, if_pos (hcond.mp hc)]
  · rw [if_neg hc, if_neg (fun h => hc (hcond.mpr h)),
      blockCells_valid_sum, blockCells_valid_length]

/-- Witness for `c9_downsample_contract` on a concrete 2x2 grid with a single
valid sample, downsampled by factor 2. -/
theorem c9_downsample_contract_witness :
    (downsample c9Grid 2).rows = c9Grid.rows / 2
    ∧ (downsample c9Grid 2).cols = c9Grid.cols / 2
    ∧ (downsample c9Grid 2).cell 0 0 = some 4 := by
  obtain ⟨h1, h2, h3⟩ := c9_downsample_contract c9Grid 2 (by norm_num)
  refine ⟨h1, h2, ?_⟩
  rw [h3 0 0]
  norm_num [c9Grid, Finset.sum_range_succ, Finset.sum_range_zero]

end Sundex
